import Mathlib

/-!
# CAM facility translator (`tools/socktap/cam_application.cpp`)

A shallow embedding of `CamApplication::buildJSON`, of the scaled-field path of
`CamApplication::on_message` and of the kinematic part of `CamApplication::on_timer`.

Conventions of the embedding:
* C++ `long` / `int` values are `Int`; the `(int)` cast wraps to 32 bits (`toInt`),
  the `uint16_t` conversion reduces modulo `2 ^ 16`.
* C++ `double` values are exact rationals (`ℚ`); `(long)` applied to a `double`
  truncates toward zero (`truncToLong`).
* The value codec is written twice: in exact arithmetic (`scaleOut`, `scaleIn`), and
  with the rounding of every `double` operation to the nearest `double` written out
  (`roundDouble`, `scaleOutWith`, `scaleInWith`); the statements on the loss of a
  round trip and on truncation are about the second one.
* A caught exception of the JSON library is the `none` of `Option`.
-/

namespace CamApplication

/-! ## JSON values (the library value type used by the source) -/

/-- The JSON value type of the source (`using json = nlohmann::json`): the signed and
unsigned integer kinds are one constructor, a `double` is an exact rational. -/
inductive Json where
  | null : Json
  | boolean : Bool → Json
  | number_integer : Int → Json
  | number_float : ℚ → Json
  | string : String → Json
  | array : List Json → Json
  | object : List (String × Json) → Json

namespace Json

/-- `j == n` for an integer literal `n`: numbers compare by value (an integer
against a float is compared as a float), any other kind is unequal. -/
def eqInt : Json → Int → Bool
  | number_integer i, n => decide (i = n)
  | number_float q, n => decide (q = (n : ℚ))
  | _, _ => false

/-- `j == "text"`: only a string with the same characters is equal. -/
def eqStr : Json → String → Bool
  | string s, t => decide (s = t)
  | _, _ => false

/-- `(long) x` for a `double` x: truncation toward zero. -/
def truncToLong (q : ℚ) : Int := Int.tdiv q.num (q.den : Int)

/-- `(long) j`: numbers convert (a float is truncated), every other kind throws. -/
def toLong : Json → Option Int
  | number_integer i => some i
  | number_float q => some (truncToLong q)
  | _ => none

/-- `(double) j`: numbers convert, every other kind throws. -/
def toDouble : Json → Option ℚ
  | number_integer i => some (i : ℚ)
  | number_float q => some q
  | _ => none

/-- `j.get_to(bool&)`: only a boolean converts, every other kind throws. -/
def toBool : Json → Option Bool
  | boolean b => some b
  | _ => none

/-- `payload[key]` on a mutable value: a missing key of an object (or any key of
`null`) yields `null`; indexing any other kind throws. -/
def index : Json → String → Option Json
  | object kvs, key => some ((kvs.lookup key).getD null)
  | null, _ => some null
  | _, _ => none

/-- `payload.at(key)`: throws unless the value is an object holding the key. -/
def atKey : Json → String → Option Json
  | object kvs, key => kvs.lookup key
  | _, _ => none

end Json

/-! ## Constants of the generated ASN.1 headers and of `<climits>` -/

/-- Modelled from the spec: `SpeedValue_unavailable` of the generated header
`SpeedValue.h` (the speed sentinel 16383). -/
def SpeedValue_unavailable : Int := 16383

/-- Modelled from the spec: `HeadingValue_unavailable` of the generated header
`HeadingValue.h` (the heading sentinel 3601). -/
def HeadingValue_unavailable : Int := 3601

/-- Modelled from the spec: `LongitudinalAccelerationValue_unavailable` of the
generated header `LongitudinalAccelerationValue.h` (the acceleration sentinel 161). -/
def LongitudinalAccelerationValue_unavailable : Int := 161

/-- Modelled from the spec: `YawRateValue_unavailable` of the generated header
`YawRateValue.h` (the yaw-rate sentinel 32767). -/
def YawRateValue_unavailable : Int := 32767

/-- Modelled from the spec: `CurvatureValue_unavailable` of the generated header
`CurvatureValue.h` (ETSI TS 102 894-2: 1023). -/
def CurvatureValue_unavailable : Int := 1023

/-- Modelled from the spec: `HeadingConfidence_unavailable` of the generated header
`HeadingConfidence.h`; of the two confidence sentinels 126 (out of range) and 127,
the second is "unavailable" (ETSI TS 102 894-2). -/
def HeadingConfidence_unavailable : Int := 127

/-- Modelled from the spec: `SpeedConfidence_unavailable` of the generated header
`SpeedConfidence.h`; of the two confidence sentinels 126 (out of range) and 127,
the second is "unavailable" (ETSI TS 102 894-2). -/
def SpeedConfidence_unavailable : Int := 127

/-- Modelled from the spec: `AccelerationConfidence_unavailable` of the generated
header `AccelerationConfidence.h` (ETSI TS 102 894-2: 102). -/
def AccelerationConfidence_unavailable : Int := 102

/-- Modelled from the spec: `YawRateConfidence_unavailable` of the generated header
`YawRateConfidence.h` (ETSI TS 102 894-2: 8). -/
def YawRateConfidence_unavailable : Int := 8

/-- Modelled from the spec: `CurvatureConfidence_unavailable` of the generated header
`CurvatureConfidence.h` (ETSI TS 102 894-2: 7). -/
def CurvatureConfidence_unavailable : Int := 7

/-- Modelled from the spec: `CurvatureCalculationMode_yawRateUsed` of the generated
header `CurvatureCalculationMode.h` (ETSI TS 102 894-2: 0). -/
def CurvatureCalculationMode_yawRateUsed : Int := 0

/-- Modelled from the spec: `VehicleLengthConfidenceIndication_noTrailerPresent` of
the generated header `VehicleLengthConfidenceIndication.h` (ETSI TS 102 894-2: 0). -/
def VehicleLengthConfidenceIndication_noTrailerPresent : Int := 0

/-- Modelled from the spec: `DriveDirection_forward` of the generated header
`DriveDirection.h`; `buildJSON` prints the value 0 as "FORWARD". -/
def DriveDirection_forward : Int := 0

/-- Modelled from the spec: `DriveDirection_backward` of the generated header
`DriveDirection.h`; `buildJSON` prints the value 1 as "BACKWARD". -/
def DriveDirection_backward : Int := 1

/-- Modelled from the spec: `DriveDirection_unavailable` of the generated header
`DriveDirection.h` (ETSI TS 102 894-2: 2). -/
def DriveDirection_unavailable : Int := 2

/-- Modelled from the spec: `GenerationDeltaTime_oneMilliSec` of the generated header
`GenerationDeltaTime.h` (one unit of the generation timestamp is one millisecond). -/
def GenerationDeltaTime_oneMilliSec : Int := 1

/-- The `<climits>` constant `LLONG_MIN`, the "no sample yet" marker of
`last_speed` and `last_heading`. -/
def LLONG_MIN : Int := -(2 ^ 63)

/-! ## The message model -/

/-- The ASN.1 `BIT_STRING_t` behind `AccelerationControl_t`. -/
structure BIT_STRING where
  buf : List Nat
  size : Nat
  bits_unused : Nat
deriving DecidableEq, Repr

/-- The fields of `CAM_t` (header and cooperative-awareness part) that the source
reads or writes, named by the last component of their access path.  The special
vehicle container is kept as the JSON value it was read from. -/
structure Cam where
  stationID : Int := 0
  generationDeltaTime : Int := 0
  stationType : Int := 0
  latitude : Int := 0
  longitude : Int := 0
  semiMajorConfidence : Int := 0
  semiMinorConfidence : Int := 0
  semiMajorOrientation : Int := 0
  altitudeValue : Int := 0
  altitudeConfidence : Int := 0
  headingValue : Int := 0
  headingConfidence : Int := 0
  speedValue : Int := 0
  speedConfidence : Int := 0
  driveDirection : Int := 0
  vehicleLengthValue : Int := 0
  vehicleLengthConfidenceIndication : Int := 0
  vehicleWidth : Int := 0
  longitudinalAccelerationValue : Int := 0
  longitudinalAccelerationConfidence : Int := 0
  curvatureValue : Int := 0
  curvatureConfidence : Int := 0
  curvatureCalculationMode : Int := 0
  yawRateValue : Int := 0
  yawRateConfidence : Int := 0
  accelerationControl : BIT_STRING := ⟨[0], 1, 1⟩
  specialVehicleContainer : Option Json := none

/-! ## The value codec, as written out line by line in the source -/

/-- Decode pattern of `buildJSON`:
`(raw == s) ? raw : (double) ((double) raw / pow(10, n))`, with one or two
sentinels s.  Both branches have type `double`.  The quotient is the exact one;
`scaleOutWith` writes out its rounding. -/
def scaleOut (sentinels : List Int) (n : Nat) (raw : Int) : ℚ :=
  if raw ∈ sentinels then (raw : ℚ) else (raw : ℚ) / (10 : ℚ) ^ n

/-- Encode pattern of `on_message`:
`(j == s) ? (long) j : (long) ((double) j * pow(10, n))`, with one or two
sentinels s.  The product is the exact one; `scaleInWith` writes out its rounding. -/
def scaleIn (sentinels : List Int) (n : Nat) (j : Json) : Option Int :=
  if sentinels.any (fun s => j.eqInt s) then j.toLong
  else j.toDouble.map (fun d => Json.truncToLong (d * (10 : ℚ) ^ n))

/-- The scaled fields of the flat JSON shape. -/
inductive ScaledField where
  | latitude | longitude | altitude | heading | headingConf | speed | speedConf
  | length | width | acceleration | yawRate
deriving DecidableEq, Repr

namespace ScaledField

/-- The JSON key of a scaled field. -/
def key : ScaledField → String
  | latitude => "latitude"
  | longitude => "longitude"
  | altitude => "altitude"
  | heading => "heading"
  | headingConf => "headingConf"
  | speed => "speed"
  | speedConf => "speedConf"
  | length => "length"
  | width => "width"
  | acceleration => "acceleration"
  | yawRate => "yawRate"

/-- The message field behind a scaled field. -/
def get : ScaledField → Cam → Int
  | latitude, m => m.latitude
  | longitude, m => m.longitude
  | altitude, m => m.altitudeValue
  | heading, m => m.headingValue
  | headingConf, m => m.headingConfidence
  | speed, m => m.speedValue
  | speedConf, m => m.speedConfidence
  | length, m => m.vehicleLengthValue
  | width, m => m.vehicleWidth
  | acceleration, m => m.longitudinalAccelerationValue
  | yawRate, m => m.yawRateValue

end ScaledField

/-- The raw-to-external mapping of `buildJSON` (lines 152-168), field by field. -/
def decode : ScaledField → Int → ℚ
  | .latitude, v => scaleOut [900000001] 7 v
  | .longitude, v => scaleOut [1800000001] 7 v
  | .altitude, v => scaleOut [800001] 2 v
  | .heading, v => scaleOut [3601] 1 v
  | .headingConf, v => scaleOut [126, 127] 1 v
  | .speed, v => scaleOut [16383] 2 v
  | .speedConf, v => scaleOut [126, 127] 2 v
  | .length, v => scaleOut [1023] 1 v
  | .width, v => scaleOut [61, 62] 1 v
  | .acceleration, v => scaleOut [161] 1 v
  | .yawRate, v => scaleOut [32767] 2 v

/-- The conversion lines 243-264 of `on_message`, field by field: the value first
assigned to the message field from the JSON value under the field's key. -/
def convert : ScaledField → Json → Option Int
  | .latitude, j => scaleIn [900000001] 7 j
  | .longitude, j => scaleIn [1800000001] 7 j
  | .altitude, j => scaleIn [800001] 2 j
  | .heading, j => scaleIn [3601] 1 j
  | .headingConf, j => scaleIn [126, 127] 1 j
  | .speed, j => scaleIn [16383] 2 j
  | .speedConf, j => scaleIn [126, 127] 2 j
  | .length, j => scaleIn [1023] 1 j
  | .width, j => scaleIn [61, 62] 1 j
  | .acceleration, j => scaleIn [161] 1 j
  | .yawRate, j => scaleIn [32767] 2 j

/-- The final assignments of lines 302-306 of `on_message` as far as they hit a
scaled field: heading and speed confidence are overwritten by "unavailable". -/
def finalAssign : ScaledField → Int → Int
  | .headingConf, _ => HeadingConfidence_unavailable
  | .speedConf, _ => SpeedConfidence_unavailable
  | _, v => v

/-- The external-to-raw mapping of the scaled-field path of `on_message`: the value
the finished message holds for the field, `none` when the conversion throws. -/
def encode (f : ScaledField) (j : Json) : Option Int :=
  (convert f j).map (finalAssign f)

/-! ## The control byte -/

/-- One `*(buf) |= mask` on a `uint8_t`. -/
def orByte (b mask : Nat) : Nat := (b ||| mask) % 256

/-- Lines 280-290 of `on_message`: the `AccelerationControl` bit string packed from
the seven flags. -/
def packAccelerationControl (brakePedalEngaged gasPedalEngaged emergencyBrakeEngaged
    collisionWarningEngaged accEngaged cruiseControlEngaged speedLimiterEngaged : Bool) :
    BIT_STRING :=
  let b : Nat := 0
  let b := if brakePedalEngaged then orByte b (1 <<< 7) else b
  let b := if gasPedalEngaged then orByte b (1 <<< 6) else b
  let b := if emergencyBrakeEngaged then orByte b (1 <<< 5) else b
  let b := if collisionWarningEngaged then orByte b (1 <<< 4) else b
  let b := if accEngaged then orByte b (1 <<< 3) else b
  let b := if cruiseControlEngaged then orByte b (1 <<< 2) else b
  let b := if speedLimiterEngaged then orByte b (1 <<< 1) else b
  { buf := [b], size := 7 / 8 + 1, bits_unused := if 7 % 8 ≠ 0 then 8 - 7 % 8 else 0 }

/-- The flag test of `buildJSON` (lines 169-175):
`(bool) (*(bvc.accelerationControl->buf) & (1 << (7-i)))`. -/
def controlFlag (acc : BIT_STRING) (i : Nat) : Bool :=
  (acc.buf.headD 0 &&& (1 <<< (7 - i))) != 0

/-! ## The scaled-field path of `on_message` -/

/-- A field read as `x = payload["key"]` into a `long`. -/
def getLong (payload : Json) (key : String) : Option Int :=
  match payload.index key with
  | none => none
  | some j => j.toLong

/-- A scaled field read by its conversion line (lines 243-264). -/
def getScaled (payload : Json) (f : ScaledField) : Option Int :=
  match payload.index f.key with
  | none => none
  | some j => convert f j

/-- Lines 257-259: the drive direction from `payload["driveDirection"]`. -/
def getDriveDirection (payload : Json) : Option Int :=
  match payload.index "driveDirection" with
  | none => none
  | some dir =>
    some (if dir.eqStr "FORWARD" then DriveDirection_forward
      else if dir.eqStr "BACKWARD" then DriveDirection_backward
      else DriveDirection_unavailable)

/-- Lines 273-279: a flag read as `payload.at("key").get_to(flag)`. -/
def getFlag (payload : Json) (key : String) : Option Bool :=
  match payload.atKey key with
  | none => none
  | some j => j.toBool

/-- Line 301: `payload.at("specialVehicle").get_to(...)`; `from_json_ok` tells whether
the converter of `SpecialVehicleContainer_t` (not among the sources) accepts a value. -/
def getSpecialVehicle (from_json_ok : Json → Bool) (payload : Json) : Option Json :=
  match payload.atKey "specialVehicle" with
  | none => none
  | some j => if from_json_ok j then some j else none

/-- Lines 237-310 of `on_message` (topic `config_s.cam.topic_in`): the message built
from the parsed payload, `none` when the `try` block throws.  `runtime_now_ms` is
`runtime_.now()` in milliseconds since the runtime epoch; the `uint16_t` conversion of
line 241 is the reduction modulo 65536. -/
def on_message_scaled (runtime_now_ms : Int) (from_json_ok : Json → Bool)
    (payload : Json) : Option Cam :=
  let gen_delta_time := runtime_now_ms % 65536
  match getLong payload "stationID" with
  | none => none
  | some stationID =>
  match getScaled payload .latitude with
  | none => none
  | some latitude =>
  match getScaled payload .longitude with
  | none => none
  | some longitude =>
  match getLong payload "semiMajorConf" with
  | none => none
  | some semiMajorConfidence =>
  match getLong payload "semiMinorConf" with
  | none => none
  | some semiMinorConfidence =>
  match getLong payload "semiMajorOrient" with
  | none => none
  | some semiMajorOrientation =>
  match getScaled payload .altitude with
  | none => none
  | some altitudeValue =>
  match getLong payload "altitudeConf" with
  | none => none
  | some altitudeConfidence =>
  match getLong payload "stationType" with
  | none => none
  | some stationType =>
  match getScaled payload .heading with
  | none => none
  | some headingValue =>
  match getScaled payload .headingConf with
  | none => none
  | some headingConfidence =>
  match getScaled payload .speed with
  | none => none
  | some speedValue =>
  match getScaled payload .speedConf with
  | none => none
  | some speedConfidence =>
  match getDriveDirection payload with
  | none => none
  | some driveDirection =>
  match getScaled payload .length with
  | none => none
  | some vehicleLengthValue =>
  match getScaled payload .width with
  | none => none
  | some vehicleWidth =>
  match getScaled payload .acceleration with
  | none => none
  | some longitudinalAccelerationValue =>
  match getLong payload "curvature" with
  | none => none
  | some curvatureValue =>
  match getScaled payload .yawRate with
  | none => none
  | some yawRateValue =>
  match getFlag payload "brakePedal" with
  | none => none
  | some brakePedalEngaged =>
  match getFlag payload "gasPedal" with
  | none => none
  | some gasPedalEngaged =>
  match getFlag payload "emergencyBrake" with
  | none => none
  | some emergencyBrakeEngaged =>
  match getFlag payload "collisionWarning" with
  | none => none
  | some collisionWarningEngaged =>
  match getFlag payload "accEngaged" with
  | none => none
  | some accEngaged =>
  match getFlag payload "cruiseControl" with
  | none => none
  | some cruiseControlEngaged =>
  match getFlag payload "speedLimiter" with
  | none => none
  | some speedLimiterEngaged =>
  match getSpecialVehicle from_json_ok payload with
  | none => none
  | some specialVehicle =>
  some {
    stationID := stationID % 2 ^ 64
    generationDeltaTime := gen_delta_time * GenerationDeltaTime_oneMilliSec
    stationType := stationType
    latitude := latitude
    longitude := longitude
    semiMajorConfidence := semiMajorConfidence
    semiMinorConfidence := semiMinorConfidence
    semiMajorOrientation := semiMajorOrientation
    altitudeValue := altitudeValue
    altitudeConfidence := altitudeConfidence
    headingValue := headingValue
    headingConfidence := finalAssign .headingConf headingConfidence
    speedValue := speedValue
    speedConfidence := finalAssign .speedConf speedConfidence
    driveDirection := driveDirection
    vehicleLengthValue := vehicleLengthValue
    vehicleLengthConfidenceIndication := VehicleLengthConfidenceIndication_noTrailerPresent
    vehicleWidth := vehicleWidth
    longitudinalAccelerationValue := longitudinalAccelerationValue
    longitudinalAccelerationConfidence := AccelerationConfidence_unavailable
    curvatureValue := curvatureValue
    curvatureConfidence := CurvatureConfidence_unavailable
    curvatureCalculationMode := CurvatureCalculationMode_yawRateUsed
    yawRateValue := yawRateValue
    yawRateConfidence := YawRateConfidence_unavailable
    accelerationControl := packAccelerationControl brakePedalEngaged gasPedalEngaged
      emergencyBrakeEngaged collisionWarningEngaged accEngaged cruiseControlEngaged
      speedLimiterEngaged
    specialVehicleContainer := some specialVehicle }

/-! ## The change-detection cache and `buildJSON` -/

/-- One inner map of `persistence`: the keys "lat", "lng" and "time" that line 195
writes together (no other line writes the map). -/
structure StationRecord where
  lat : ℚ
  lng : ℚ
  time : ℚ
deriving DecidableEq

/-- The global `std::map<long, std::map<std::string, double>> persistence`: a finite
map read by `find` and written by `operator[]`. -/
abbrev Persistence := Int → Option StationRecord

/-- The constructor leaves `persistence = {}`. -/
def Persistence.empty : Persistence := fun _ => none

/-- The assignment `persistence[stationID] = record` of line 195. -/
def Persistence.insert (persistence : Persistence) (stationID : Int)
    (record : StationRecord) : Persistence :=
  fun k => if k = stationID then some record else persistence k

/-- The part of `config_s` that the modelled functions read. -/
structure Config where
  station_id : Int
  station_type : Int
  length : ℚ
  width : ℚ

/-- Line 145 of `buildJSON`: the new-information flag. -/
def new_info (persistence : Persistence) (stationID latitude longitude : Int)
    (time_reception : ℚ) : Bool :=
  match persistence stationID with
  | none => true
  | some last_map =>
    decide (last_map.lat ≠ (latitude : ℚ)) || decide (last_map.lng ≠ (longitude : ℚ))
      || decide (time_reception - last_map.time ≥ 1)

/-- Lines 127-138 of `buildJSON`: the printed drive direction. -/
def driveDirectionName (driveDirection : Int) : String :=
  if driveDirection = 0 then "FORWARD"
  else if driveDirection = 1 then "BACKWARD"
  else "UNAVAILABLE"

/-- What one call of `buildJSON` leaves behind: the JSON object that is dumped, the
local `new_info`, the cache, and the increment handed to `cam_rx_latency`. -/
structure BuildResult where
  json_payload : List (String × Json)
  new_info : Bool
  persistence : Persistence
  rx_latency : ℚ

/-- The function `CamApplication::buildJSON` (lines 118-199); `time_now` is the
wall-clock reading of line 147. -/
def buildJSON (config_s : Config) (persistence : Persistence) (message : Cam)
    (time_reception : ℚ) (rssi : Int) (include_fields : Bool) (time_now : ℚ) :
    BuildResult :=
  let latitude := message.latitude
  let longitude := message.longitude
  let new_info := new_info persistence message.stationID latitude longitude time_reception
  let json_payload : List (String × Json) := [
    ("stationID", .number_integer message.stationID),
    ("stationType", .number_integer message.stationType),
    ("latitude", .number_float (decode .latitude latitude)),
    ("longitude", .number_float (decode .longitude longitude)),
    ("semiMajorConf", .number_integer message.semiMajorConfidence),
    ("semiMinorConf", .number_integer message.semiMinorConfidence),
    ("semiMajorOrient", .number_integer message.semiMajorOrientation),
    ("altitude", .number_float (decode .altitude message.altitudeValue)),
    ("altitudeConf", .number_integer message.altitudeConfidence),
    ("heading", .number_float (decode .heading message.headingValue)),
    ("headingConf", .number_float (decode .headingConf message.headingConfidence)),
    ("speed", .number_float (decode .speed message.speedValue)),
    ("speedConf", .number_float (decode .speedConf message.speedConfidence)),
    ("driveDirection", .string (driveDirectionName message.driveDirection)),
    ("length", .number_float (decode .length message.vehicleLengthValue)),
    ("width", .number_float (decode .width message.vehicleWidth)),
    ("acceleration", .number_float (decode .acceleration message.longitudinalAccelerationValue)),
    ("curvature", .number_integer message.curvatureValue),
    ("yawRate", .number_float (decode .yawRate message.yawRateValue)),
    ("brakePedal", .boolean (controlFlag message.accelerationControl 0)),
    ("gasPedal", .boolean (controlFlag message.accelerationControl 1)),
    ("emergencyBrake", .boolean (controlFlag message.accelerationControl 2)),
    ("collisionWarning", .boolean (controlFlag message.accelerationControl 3)),
    ("accEngaged", .boolean (controlFlag message.accelerationControl 4)),
    ("cruiseControl", .boolean (controlFlag message.accelerationControl 5)),
    ("speedLimiter", .boolean (controlFlag message.accelerationControl 6)),
    ("specialVehicle", .object [("publicTransportContainer",
      .object [("embarkationStatus", .boolean false)])])]
  let json_payload :=
    if include_fields then
      json_payload ++ [
        ("timestamp", .number_float time_reception),
        ("newInfo", .boolean new_info),
        ("rssi", .number_integer rssi),
        ("test", .object [("json_timestamp", .number_float time_now)]),
        ("receiverID", .number_integer config_s.station_id),
        ("receiverType", .number_integer config_s.station_type)]
    else json_payload
  let persistence :=
    if new_info then
      persistence.insert message.stationID ⟨(latitude : ℚ), (longitude : ℚ), time_reception⟩
    else persistence
  { json_payload := json_payload, new_info := new_info, persistence := persistence,
    rx_latency := time_now - time_reception }

/-- The cache contract `observe(station_id, latitude, longitude, reception_time)`:
`buildJSON` run on a message with that station and position; the flag and the cache
it leaves. -/
def observe (persistence : Persistence) (stationID latitude longitude : Int)
    (time_reception : ℚ) : Bool × Persistence :=
  let r := buildJSON ⟨0, 0, 0, 0⟩ persistence
    { stationID := stationID, latitude := latitude, longitude := longitude }
    time_reception 0 true 0
  (r.new_info, r.persistence)

/-! ## The kinematic part of `on_timer` -/

/-- The globals `last_speed`, `time_speed`, `last_heading`, `time_heading`. -/
structure Engine where
  last_speed : Int
  time_speed : ℚ
  last_heading : Int
  time_heading : ℚ
deriving DecidableEq

/-- The initial values of lines 32-36. -/
def Engine.init : Engine := ⟨LLONG_MIN, 0, LLONG_MIN, 0⟩

/-- The cast `(int) x` of a `long`: reduction to 32 bits, two's complement. -/
def toInt (x : Int) : Int := (x + 2 ^ 31) % 2 ^ 32 - 2 ^ 31

/-- What `on_timer` reads from `positioning_.position_fix()`: the speed and course
magnitudes, and the reference position that `copy` derives from the fix. -/
structure PositionFix where
  speed : ℚ
  course : ℚ
  latitude : Int := 0
  longitude : Int := 0
  semiMajorConfidence : Int := 0
  semiMinorConfidence : Int := 0
  semiMajorOrientation : Int := 0
  altitudeValue : Int := 0
  altitudeConfidence : Int := 0

/-- Lines 360-361: the sampled speed. -/
def sampleSpeed (position : PositionFix) : Int :=
  if position.speed ≥ 0 ∧ position.speed ≤ 16382 then Json.truncToLong position.speed
  else SpeedValue_unavailable

/-- Lines 374-375: the sampled heading. -/
def sampleHeading (position : PositionFix) : Int :=
  if position.course ≥ 0 ∧ position.course ≤ 3600 then Json.truncToLong position.course
  else HeadingValue_unavailable

/-- Lines 362-372: the acceleration of this cycle with the updated `last_speed` and
`time_speed`. -/
def accelerationStep (last_speed : Int) (time_speed : ℚ) (speed : Int) (millis_now : ℚ) :
    Int × Int × ℚ :=
  let acceleration := LongitudinalAccelerationValue_unavailable
  let time_speed := if time_speed = 0 then millis_now else time_speed
  if last_speed ≠ LLONG_MIN ∧ (speed ≠ last_speed ∨ millis_now - time_speed ≥ 1) then
    let acceleration := toInt ((speed - last_speed) * 10)
    let acceleration :=
      if acceleration < -160 ∧ acceleration > 160 then
        LongitudinalAccelerationValue_unavailable
      else acceleration
    (acceleration, speed, millis_now)
  else (acceleration, speed, time_speed)

/-- Lines 376-384: the yaw rate of this cycle with the updated `last_heading` and
`time_heading`. -/
def yawRateStep (last_heading : Int) (time_heading : ℚ) (heading : Int) (millis_now : ℚ) :
    Int × Int × ℚ :=
  let yaw_rate := YawRateValue_unavailable
  let time_heading := if time_heading = 0 then millis_now else time_heading
  if last_heading ≠ LLONG_MIN ∧ (heading ≠ last_heading ∨ millis_now - time_heading ≥ 1) then
    let yaw_rate := toInt ((heading - last_heading) * 100)
    let yaw_rate :=
      if yaw_rate < -32766 ∧ yaw_rate > 32766 then YawRateValue_unavailable
      else yaw_rate
    (yaw_rate, heading, millis_now)
  else (yaw_rate, heading, time_heading)

/-- Lines 345-421 of `on_timer`: the message assembled in one beacon cycle and the
engine state the cycle leaves.  `runtime_now_ms` is `runtime_.now()` in milliseconds,
`millis_now` the wall-clock reading of line 364 (in seconds). -/
def on_timer_assemble (config_s : Config) (engine : Engine) (position : PositionFix)
    (runtime_now_ms : Int) (millis_now : ℚ) : Cam × Engine :=
  let gen_delta_time := runtime_now_ms % 65536
  let speed := sampleSpeed position
  let a := accelerationStep engine.last_speed engine.time_speed speed millis_now
  let heading := sampleHeading position
  let y := yawRateStep engine.last_heading engine.time_heading heading millis_now
  ({ stationID := config_s.station_id
     generationDeltaTime := gen_delta_time * GenerationDeltaTime_oneMilliSec
     stationType := config_s.station_type
     latitude := position.latitude
     longitude := position.longitude
     semiMajorConfidence := position.semiMajorConfidence
     semiMinorConfidence := position.semiMinorConfidence
     semiMajorOrientation := position.semiMajorOrientation
     altitudeValue := position.altitudeValue
     altitudeConfidence := position.altitudeConfidence
     headingValue := heading
     headingConfidence := HeadingConfidence_unavailable
     speedValue := speed
     speedConfidence := SpeedConfidence_unavailable
     driveDirection := DriveDirection_forward
     longitudinalAccelerationValue := a.1
     vehicleLengthValue := Json.truncToLong (config_s.length * 10)
     vehicleLengthConfidenceIndication := VehicleLengthConfidenceIndication_noTrailerPresent
     vehicleWidth := Json.truncToLong (config_s.width * 10)
     curvatureValue := CurvatureValue_unavailable
     curvatureConfidence := CurvatureConfidence_unavailable
     curvatureCalculationMode := CurvatureCalculationMode_yawRateUsed
     yawRateValue := y.1
     accelerationControl := ⟨[0b10111110], 1, 1⟩ },
   { last_speed := a.2.1, time_speed := a.2.2,
     last_heading := y.2.1, time_heading := y.2.2 })

/-! ## The field table of the specification -/

/-- The sentinels the specification lists for each scaled field. -/
def sentinels : ScaledField → List Int
  | .latitude => [900000001]
  | .longitude => [1800000001]
  | .altitude => [800001]
  | .heading => [3601]
  | .headingConf => [126, 127]
  | .speed => [16383]
  | .speedConf => [126, 127]
  | .length => [1023]
  | .width => [61, 62]
  | .acceleration => [161]
  | .yawRate => [32767]

/-- The decimal exponent of the scale factor the specification lists for each scaled
field: the factor is `10 ^ exponent`. -/
def exponent : ScaledField → Nat
  | .latitude => 7
  | .longitude => 7
  | .altitude => 2
  | .heading => 1
  | .headingConf => 1
  | .speed => 2
  | .speedConf => 2
  | .length => 1
  | .width => 1
  | .acceleration => 1
  | .yawRate => 2

/-- The value fields: every scaled field but the two confidences. -/
def isValueField : ScaledField → Bool
  | .headingConf => false
  | .speedConf => false
  | _ => true

/-- The raw range the specification lists for each value field (for the two
confidences, the range 1..127 of the ASN.1 type). -/
def rawRange : ScaledField → Int × Int
  | .latitude => (-900000000, 900000001)
  | .longitude => (-1800000000, 1800000001)
  | .altitude => (-100000, 800001)
  | .heading => (0, 3601)
  | .headingConf => (1, 127)
  | .speed => (0, 16383)
  | .speedConf => (1, 127)
  | .length => (1, 1023)
  | .width => (1, 62)
  | .acceleration => (-160, 161)
  | .yawRate => (-32766, 32767)

/-! ## The value codec in binary64 arithmetic -/

/-- Rounding of an exact value to the nearest integer, a tie going to the even one. -/
def roundHalfEven (x : ℚ) : Int :=
  if x - ⌊x⌋ < 1 / 2 then ⌊x⌋
  else if 1 / 2 < x - ⌊x⌋ then ⌊x⌋ + 1
  else if ⌊x⌋ % 2 = 0 then ⌊x⌋ else ⌊x⌋ + 1

/-- The `double` nearest to an exact value: the rounding every arithmetic operation on
`double` performs (IEEE 754 binary64: 53-bit significand, round to nearest, ties to
even): the significand of q, scaled to lie between 2^52 and 2^53, is rounded to an
integer.  The exponent range is not bounded (no overflow, no subnormal numbers), which
changes no value between 2^-1022 and 2^1024 in magnitude. -/
def roundDouble (q : ℚ) : ℚ :=
  if q = 0 then 0
  else (roundHalfEven (q / (2 : ℚ) ^ (Int.log 2 |q| - 52)) : ℚ) *
    (2 : ℚ) ^ (Int.log 2 |q| - 52)

/-- `(double) j` with the rounding `fl` of the conversion written out: an integer JSON
number is converted to a `double`, a floating-point one is the `double` it holds. -/
def Json.toDoubleWith (fl : ℚ → ℚ) : Json → Option ℚ
  | .number_integer i => some (fl (i : ℚ))
  | .number_float q => some q
  | _ => none

/-- Decode pattern of `buildJSON`,
`(raw == s) ? raw : (double) ((double) raw / pow(10, n))`, with the rounding `fl` of
each `double` operation written out: the conversion of the integer and the division.
The power `pow(10, n)` is exact for the exponents of the source (at most 7). -/
def scaleOutWith (fl : ℚ → ℚ) (ss : List Int) (n : Nat) (raw : Int) : ℚ :=
  if raw ∈ ss then fl (raw : ℚ) else fl (fl (raw : ℚ) / (10 : ℚ) ^ n)

/-- Encode pattern of `on_message`,
`(j == s) ? (long) j : (long) ((double) j * pow(10, n))`, with the rounding `fl` of
each `double` operation written out: the conversion of the JSON number and the
product. -/
def scaleInWith (fl : ℚ → ℚ) (ss : List Int) (n : Nat) (j : Json) : Option Int :=
  if ss.any (fun s => j.eqInt s) then j.toLong
  else (j.toDoubleWith fl).map (fun d => Json.truncToLong (fl (d * (10 : ℚ) ^ n)))

/-- The raw-to-external mapping of `buildJSON` (lines 152-168), field by field, with
the rounding `fl` of the `double` operations. -/
def decodeWith (fl : ℚ → ℚ) : ScaledField → Int → ℚ
  | .latitude, v => scaleOutWith fl [900000001] 7 v
  | .longitude, v => scaleOutWith fl [1800000001] 7 v
  | .altitude, v => scaleOutWith fl [800001] 2 v
  | .heading, v => scaleOutWith fl [3601] 1 v
  | .headingConf, v => scaleOutWith fl [126, 127] 1 v
  | .speed, v => scaleOutWith fl [16383] 2 v
  | .speedConf, v => scaleOutWith fl [126, 127] 2 v
  | .length, v => scaleOutWith fl [1023] 1 v
  | .width, v => scaleOutWith fl [61, 62] 1 v
  | .acceleration, v => scaleOutWith fl [161] 1 v
  | .yawRate, v => scaleOutWith fl [32767] 2 v

/-- The conversion lines 243-264 of `on_message`, field by field, with the rounding
`fl` of the `double` operations. -/
def convertWith (fl : ℚ → ℚ) : ScaledField → Json → Option Int
  | .latitude, j => scaleInWith fl [900000001] 7 j
  | .longitude, j => scaleInWith fl [1800000001] 7 j
  | .altitude, j => scaleInWith fl [800001] 2 j
  | .heading, j => scaleInWith fl [3601] 1 j
  | .headingConf, j => scaleInWith fl [126, 127] 1 j
  | .speed, j => scaleInWith fl [16383] 2 j
  | .speedConf, j => scaleInWith fl [126, 127] 2 j
  | .length, j => scaleInWith fl [1023] 1 j
  | .width, j => scaleInWith fl [61, 62] 1 j
  | .acceleration, j => scaleInWith fl [161] 1 j
  | .yawRate, j => scaleInWith fl [32767] 2 j

/-- The raw-to-external mapping of `buildJSON` in `double` arithmetic. -/
def decodeDouble (f : ScaledField) (v : Int) : ℚ := decodeWith roundDouble f v

/-- The external-to-raw mapping of the scaled-field path of `on_message` in `double`
arithmetic: the conversion line of the field, then the final assignments of lines
302-306; `none` when the conversion throws. -/
def encodeDouble (f : ScaledField) (j : Json) : Option Int :=
  (convertWith roundDouble f j).map (finalAssign f)

/-- One round trip raw → external → raw → external in `double` arithmetic. -/
def roundTripDouble (f : ScaledField) (v : Int) : Option ℚ :=
  (encodeDouble f (.number_float (decodeDouble f v))).map (decodeDouble f)

/-! ## A sample payload of the scaled-field topic -/

/-- A well-formed payload of the scaled-field topic: a braking passenger car at
41.1 degrees north, 8.6 degrees west, with brake pedal and emergency brake engaged. -/
def samplePayload : Json :=
  .object [
    ("stationID", .number_integer 7),
    ("stationType", .number_integer 5),
    ("latitude", .number_float (411 / 10)),
    ("longitude", .number_float (-86 / 10)),
    ("semiMajorConf", .number_integer 4095),
    ("semiMinorConf", .number_integer 4095),
    ("semiMajorOrient", .number_integer 3601),
    ("altitude", .number_integer 800001),
    ("altitudeConf", .number_integer 15),
    ("heading", .number_float (905 / 10)),
    ("headingConf", .number_integer 126),
    ("speed", .number_float (1239 / 1000)),
    ("speedConf", .number_float (1 / 2)),
    ("driveDirection", .string "FORWARD"),
    ("length", .number_float (42 / 10)),
    ("width", .number_float (18 / 10)),
    ("acceleration", .number_integer 161),
    ("curvature", .number_integer 1023),
    ("yawRate", .number_integer 32767),
    ("brakePedal", .boolean true),
    ("gasPedal", .boolean false),
    ("emergencyBrake", .boolean true),
    ("collisionWarning", .boolean false),
    ("accEngaged", .boolean false),
    ("cruiseControl", .boolean false),
    ("speedLimiter", .boolean false),
    ("specialVehicle", .object [("publicTransportContainer",
      .object [("embarkationStatus", .boolean false)])])]

/-- The message the scaled-field path builds from `samplePayload` at runtime clock 0. -/
def sampleCam : Cam :=
  { stationID := 7
    generationDeltaTime := 0
    stationType := 5
    latitude := 411000000
    longitude := -86000000
    semiMajorConfidence := 4095
    semiMinorConfidence := 4095
    semiMajorOrientation := 3601
    altitudeValue := 800001
    altitudeConfidence := 15
    headingValue := 905
    headingConfidence := 127
    speedValue := 123
    speedConfidence := 127
    driveDirection := 0
    vehicleLengthValue := 42
    vehicleLengthConfidenceIndication := 0
    vehicleWidth := 18
    longitudinalAccelerationValue := 161
    longitudinalAccelerationConfidence := 102
    curvatureValue := 1023
    curvatureConfidence := 7
    curvatureCalculationMode := 0
    yawRateValue := 32767
    yawRateConfidence := 8
    accelerationControl := ⟨[0b10100000], 1, 1⟩
    specialVehicleContainer := some (.object [("publicTransportContainer",
      .object [("embarkationStatus", .boolean false)])]) }

/-- A sample configuration: station 7, a passenger car 4.2 m long and 1.8 m wide. -/
def sampleConfig : Config := ⟨7, 5, 42 / 10, 18 / 10⟩

/-! ## The runtime timer queue, `set_interval` and `schedule_timer` -/

/-- Modelled from the spec: one pending timer of `Runtime` (its class is not among the
sources): the scope it was scheduled under and the delay it was armed for. -/
structure Timer where
  scope : Nat
  delay : Int
deriving DecidableEq, Repr

/-- Modelled from the spec: the pending timers of `Runtime`, oldest first. -/
structure Runtime where
  queue : List Timer
deriving DecidableEq

/-- Modelled from the spec: `runtime_.cancel(scope)` "cancels any pending timer" of the
scope, at once. -/
def Runtime.cancel (runtime_ : Runtime) (scope : Nat) : Runtime :=
  ⟨runtime_.queue.filter (fun t => decide (t.scope ≠ scope))⟩

/-- Modelled from the spec: `runtime_.schedule(delay, callback, scope)` "arms a new
timer" for the delay. -/
def Runtime.schedule (runtime_ : Runtime) (delay : Int) (scope : Nat) : Runtime :=
  ⟨runtime_.queue ++ [⟨scope, delay⟩]⟩

/-- Modelled from the spec: on a timer fire the runtime takes the due timer of the
scope out of its queue before it runs the callback. -/
def Runtime.fire (runtime_ : Runtime) (scope : Nat) : Runtime :=
  ⟨runtime_.queue.eraseP (fun t => decide (t.scope = scope))⟩

/-- The pending timers a scope owns. -/
def Runtime.pending (runtime_ : Runtime) (scope : Nat) : List Timer :=
  runtime_.queue.filter (fun t => decide (t.scope = scope))

/-- The four Prometheus counters of lines 22-25. -/
structure Metrics where
  cam_rx_counter : Nat
  cam_tx_counter : Nat
  cam_rx_latency : ℚ
  cam_tx_latency : ℚ
deriving DecidableEq

/-- The transports a payload is published on. -/
inductive Transport where
  | mqtt | dds | udp
deriving DecidableEq, Repr

/-- One `publish(topic, payload)` call (or one datagram of the UDP mirror); the payload
is the JSON value that is dumped. -/
structure Publication where
  transport : Transport
  topic : String
  payload : Json

/-- The topic and transport part of `config_s`. -/
structure TopicConfig where
  mqtt_enabled : Bool
  dds_enabled : Bool
  topic_in : String
  topic_out : String
  full_cam_topic_in : String
  full_cam_topic_out : String
  own_cam_topic_out : String
  own_full_cam_topic_out : String
  udp_out_port : Nat

/-- The mutable state the handlers share: the members `cam_interval_` and `runtime_`,
the globals of lines 20-36, and what has left the application so far (messages handed
to `Application::request`, publications, error reports written to `std::cout`). -/
structure AppState where
  cam_interval_ : Int
  runtime_ : Runtime
  engine : Engine
  persistence : Persistence
  metrics : Metrics
  requested : List Cam
  published : List Publication
  reported : Nat

/-- The function `CamApplication::schedule_timer` (lines 113-116); `this` is the scope. -/
def schedule_timer (this : Nat) (app : AppState) : AppState :=
  { app with runtime_ := app.runtime_.schedule app.cam_interval_ this }

/-- The function `CamApplication::set_interval` (lines 58-63). -/
def set_interval (this : Nat) (app : AppState) (interval : Int) : AppState :=
  let app := { app with cam_interval_ := interval }
  let app := { app with runtime_ := app.runtime_.cancel this }
  if interval ≠ 0 then schedule_timer this app else app

/-! ## `on_message`, `on_timer` and `indicate` as state transformers -/

/-- What `Application::request` answers (the router is not among the sources): the
confirm is accepted, or not, or the call throws. -/
inductive Confirm where
  | accepted | rejected | threw
deriving DecidableEq, Repr

/-- Lines 325-334 and 448-457: a confirm that is not accepted, or an exception, is
reported and swallowed. -/
def reportConfirm (confirm : Confirm) (reported : Nat) : Nat :=
  match confirm with
  | .accepted => reported
  | .rejected => reported + 1
  | .threw => reported + 1

/-- Lines 217-315 of `on_message`: the message to dispatch, `none` when a `catch` block
returns.  A topic that is neither inbound topic leaves the message as constructed. -/
def on_message_convert (topics : TopicConfig) (config_s : Config)
    (from_json_CoopAwareness : Json → Option Cam) (from_json_ok : Json → Bool)
    (runtime_now_ms : Int) (topic : String) (payload : Json) : Option Cam :=
  if topic = topics.full_cam_topic_in then
    match from_json_CoopAwareness payload with
    | none => none
    | some cam => some { cam with stationID := config_s.station_id }
  else if topic = topics.topic_in then
    on_message_scaled runtime_now_ms from_json_ok payload
  else some {}

/-- The function `CamApplication::on_message` (lines 201-340).  `parse` is `json::parse`
(`none` when it throws), `from_json_CoopAwareness` the converter of the full-fidelity
path, `time_reception` and `time_now` the wall-clock readings of lines 203 and 336. -/
def on_message (topics : TopicConfig) (config_s : Config) (parse : String → Option Json)
    (from_json_CoopAwareness : Json → Option Cam) (from_json_ok : Json → Bool)
    (runtime_now_ms : Int) (time_reception time_now : ℚ) (confirm : Confirm)
    (app : AppState) (topic mqtt_message : String) : AppState :=
  match parse mqtt_message with
  | none => { app with reported := app.reported + 1 }
  | some payload =>
    match on_message_convert topics config_s from_json_CoopAwareness from_json_ok
        runtime_now_ms topic payload with
    | none => { app with reported := app.reported + 1 }
    | some message =>
      { app with
        requested := app.requested ++ [message]
        reported := reportConfirm confirm app.reported
        metrics := { app.metrics with
          cam_tx_counter := app.metrics.cam_tx_counter + 1
          cam_tx_latency := app.metrics.cam_tx_latency + (time_now - time_reception) } }

/-- The two `publish` calls that follow a dump (for instance lines 89-90). -/
def publishBoth (topics : TopicConfig) (topic : String) (payload : Json) :
    List Publication :=
  (if topics.mqtt_enabled then [⟨.mqtt, topic, payload⟩] else []) ++
  (if topics.dds_enabled then [⟨.dds, topic, payload⟩] else [])

/-- The function `CamApplication::indicate` (lines 70-111) for a decodable packet:
`cam_t` is the decoded message, `time_received` and `rssi` come with the packet,
`time_now` and `json_timestamp` are the wall-clock readings of lines 147 and 100,
`to_json` is the converter behind `json fields_json = cam_t`. -/
def indicate (topics : TopicConfig) (config_s : Config) (to_json : Cam → Json)
    (cam_t : Cam) (time_received : ℚ) (rssi : Int) (time_now json_timestamp : ℚ)
    (app : AppState) : AppState :=
  let r := buildJSON config_s app.persistence cam_t time_received rssi true time_now
  let cam_json := Json.object r.json_payload
  let published := publishBoth topics topics.topic_out cam_json
  let full_json := Json.object [
    ("timestamp", .number_float time_received),
    ("rssi", .number_integer rssi),
    ("others", .array [.string "json_timestamp", .number_float json_timestamp]),
    ("fields", to_json cam_t)]
  let published_full :=
    if topics.full_cam_topic_out ≠ "" then
      publishBoth topics topics.full_cam_topic_out full_json ++
        (if topics.udp_out_port ≠ 0 then [⟨.udp, "", full_json⟩] else [])
    else []
  { app with
    persistence := r.persistence
    published := app.published ++ published ++ published_full
    metrics := { app.metrics with
      cam_rx_latency := app.metrics.cam_rx_latency + r.rx_latency
      cam_rx_counter := app.metrics.cam_rx_counter + 1 } }

/-- The function `CamApplication::on_timer` (lines 342-460).  `validate` is
`message.validate(error)`; the second component tells whether the `runtime_error` of
line 437 leaves the function.  `millis_now` and `time_now` are the wall-clock readings
of lines 364 and 147. -/
def on_timer (this : Nat) (topics : TopicConfig) (config_s : Config) (to_json : Cam → Json)
    (validate : Cam → Bool) (position : PositionFix) (runtime_now_ms : Int)
    (millis_now time_now : ℚ) (confirm : Confirm) (app : AppState) : AppState × Bool :=
  let app := schedule_timer this app
  let assembled := on_timer_assemble config_s app.engine position runtime_now_ms millis_now
  let message := assembled.1
  let r := buildJSON config_s app.persistence message 0 0 false time_now
  let published := publishBoth topics topics.own_cam_topic_out (Json.object r.json_payload)
  let published_full :=
    if topics.full_cam_topic_out ≠ "" then
      if topics.own_full_cam_topic_out ≠ "" then
        publishBoth topics topics.own_full_cam_topic_out
          (((to_json message).index "cam").getD .null)
      else []
    else []
  let app := { app with
    engine := assembled.2
    persistence := r.persistence
    published := app.published ++ published ++ published_full
    metrics := { app.metrics with
      cam_rx_latency := app.metrics.cam_rx_latency + r.rx_latency } }
  if validate message = false then (app, true)
  else
    ({ app with
       requested := app.requested ++ [message]
       reported := reportConfirm confirm app.reported
       metrics := { app.metrics with cam_tx_counter := app.metrics.cam_tx_counter + 1 } },
     false)

/-- Modelled from the spec: a timer fire; the runtime takes the due timer of the
application out of its queue and runs `on_timer`. -/
def timer_fire (this : Nat) (topics : TopicConfig) (config_s : Config) (to_json : Cam → Json)
    (validate : Cam → Bool) (position : PositionFix) (runtime_now_ms : Int)
    (millis_now time_now : ℚ) (confirm : Confirm) (app : AppState) : AppState × Bool :=
  on_timer this topics config_s to_json validate position runtime_now_ms millis_now
    time_now confirm { app with runtime_ := app.runtime_.fire this }

/-! ## Shapes of a scaled-field payload -/

/-- The keys the scaled-field path converts to a number. -/
def numericKeys : List String :=
  ["stationID", "stationType", "latitude", "longitude", "semiMajorConf", "semiMinorConf",
   "semiMajorOrient", "altitude", "altitudeConf", "heading", "headingConf", "speed",
   "speedConf", "length", "width", "acceleration", "curvature", "yawRate"]

/-- The keys the scaled-field path reads as a boolean. -/
def flagKeys : List String :=
  ["brakePedal", "gasPedal", "emergencyBrake", "collisionWarning", "accEngaged",
   "cruiseControl", "speedLimiter"]

/-- The required keys the specification lists for the scaled-field shape. -/
def requiredKeys : List String :=
  ["stationID", "stationType", "latitude", "longitude", "semiMajorConf", "semiMinorConf",
   "semiMajorOrient", "altitude", "altitudeConf", "heading", "headingConf", "speed",
   "speedConf", "driveDirection", "length", "width", "acceleration", "curvature",
   "yawRate", "brakePedal", "gasPedal", "emergencyBrake", "collisionWarning", "accEngaged",
   "cruiseControl", "speedLimiter", "specialVehicle"]

/-- The payload is an object that holds a JSON number under the key. -/
def holdsNumber (payload : Json) (key : String) : Bool :=
  match payload.atKey key with
  | some (.number_integer _) => true
  | some (.number_float _) => true
  | _ => false

/-- The payload is an object that holds a JSON boolean under the key. -/
def holdsBoolean (payload : Json) (key : String) : Bool :=
  match payload.atKey key with
  | some (.boolean _) => true
  | _ => false

/-- The payload is an object that holds, under "specialVehicle", a value the converter
of the special-vehicle container accepts. -/
def holdsSpecialVehicle (from_json_ok : Json → Bool) (payload : Json) : Bool :=
  match payload.atKey "specialVehicle" with
  | some j => from_json_ok j
  | none => false

/-- The sample payload without its "driveDirection" key. -/
def samplePayloadNoDirection : Json :=
  match samplePayload with
  | .object kvs => .object (kvs.filter (fun kv => decide (kv.1 ≠ "driveDirection")))
  | j => j

/-- A sample topic configuration. -/
def sampleTopics : TopicConfig :=
  { mqtt_enabled := true, dds_enabled := false, topic_in := "vanetza/in/cam",
    topic_out := "vanetza/out/cam", full_cam_topic_in := "vanetza/in/cam_full",
    full_cam_topic_out := "vanetza/out/cam_full", own_cam_topic_out := "vanetza/own/cam",
    own_full_cam_topic_out := "vanetza/own/cam_full", udp_out_port := 0 }

/-- An application state with nothing pending, an empty cache and zeroed counters. -/
def sampleApp : AppState :=
  { cam_interval_ := 0, runtime_ := ⟨[]⟩, engine := Engine.init,
    persistence := Persistence.empty, metrics := ⟨0, 0, 0, 0⟩, requested := [],
    published := [], reported := 0 }

/-! ## Theorems -/

/-! ### Truncation -/

theorem truncToLong_intCast (v : Int) : Json.truncToLong (v : ℚ) = v := by
  simp [Json.truncToLong]

theorem truncToLong_of_nonneg {q : ℚ} (h : 0 ≤ q) : Json.truncToLong q = ⌊q⌋ := by
  rw [Rat.floor_def]
  exact Int.tdiv_eq_ediv (Rat.num_nonneg.mpr h) (Int.ofNat_nonneg _)

theorem truncToLong_neg (q : ℚ) : Json.truncToLong (-q) = -Json.truncToLong q := by
  simp [Json.truncToLong]

theorem truncToLong_of_nonpos {q : ℚ} (h : q ≤ 0) : Json.truncToLong q = ⌈q⌉ := by
  have h1 : Json.truncToLong (-q) = ⌊-q⌋ := truncToLong_of_nonneg (by linarith)
  rw [truncToLong_neg, Int.floor_neg] at h1
  omega

theorem truncToLong_ofNat (n : ℕ) [n.AtLeastTwo] :
    Json.truncToLong (OfNat.ofNat n : ℚ) = (OfNat.ofNat n : Int) := by
  have h : ((OfNat.ofNat n : Int) : ℚ) = (OfNat.ofNat n : ℚ) := by simp
  rw [← h, truncToLong_intCast]

/-- A concrete truncation, discharged through the floor characterisation. -/
theorem truncToLong_eq_of_nonneg {q : ℚ} {z : Int} (h0 : 0 ≤ q) (h1 : (z : ℚ) ≤ q)
    (h2 : q < z + 1) : Json.truncToLong q = z := by
  rw [truncToLong_of_nonneg h0, Int.floor_eq_iff]
  exact ⟨h1, h2⟩

/-! ### The scaled-field path on the sample payload -/

theorem on_message_scaled_samplePayload :
    on_message_scaled 0 (fun _ => true) samplePayload = some sampleCam := by
  have e1 : Json.truncToLong (411000000 : ℚ) = 411000000 := truncToLong_ofNat _
  have e2 : Json.truncToLong (-86000000 : ℚ) = -86000000 := by
    rw [truncToLong_neg, truncToLong_ofNat]
  have e3 : Json.truncToLong (905 : ℚ) = 905 := truncToLong_ofNat _
  have e4 : Json.truncToLong (1239 / 10 : ℚ) = 123 :=
    truncToLong_eq_of_nonneg (by norm_num) (by norm_num) (by norm_num)
  have e5 : Json.truncToLong (50 : ℚ) = 50 := truncToLong_ofNat _
  have e6 : Json.truncToLong (42 : ℚ) = 42 := truncToLong_ofNat _
  have e7 : Json.truncToLong (18 : ℚ) = 18 := truncToLong_ofNat _
  simp [on_message_scaled, samplePayload, sampleCam, getLong, getScaled, getFlag,
    getDriveDirection, getSpecialVehicle, Json.index, Json.atKey, List.lookup, Json.toLong,
    Json.toBool, ScaledField.key, convert, scaleIn, Json.eqInt, Json.toDouble, Json.eqStr,
    finalAssign]
  norm_num [e1, e2, e3, e4, e5, e6, e7]
  decide

/-! ### The value codec -/

theorem decode_eq (f : ScaledField) (v : Int) :
    decode f v = scaleOut (sentinels f) (exponent f) v := by
  cases f <;> rfl

theorem convert_eq (f : ScaledField) (j : Json) :
    convert f j = scaleIn (sentinels f) (exponent f) j := by
  cases f <;> rfl

/-- On a value field no final assignment intervenes. -/
theorem encode_eq_convert (f : ScaledField) (hf : isValueField f = true) (j : Json) :
    encode f j = convert f j := by
  have h : finalAssign f = id := by
    funext r
    cases f <;> first | rfl | exact absurd hf (by decide)
  simp [encode, h]

/-- Every message the scaled-field path accepts holds, for each scaled field, the
value `encode` gives for the JSON value under the field's key. -/
theorem on_message_scaled_encode (runtime_now_ms : Int) (from_json_ok : Json → Bool)
    (payload : Json) (cam : Cam)
    (h : on_message_scaled runtime_now_ms from_json_ok payload = some cam)
    (f : ScaledField) :
    ∃ j, payload.index f.key = some j ∧ encode f j = some (f.get cam) := by
  simp only [on_message_scaled] at h
  repeat (split at h; · exact Option.noConfusion h)
  cases h
  have key : ∀ (g : ScaledField) (r : Int), getScaled payload g = some r →
      ∃ j, payload.index g.key = some j ∧ convert g j = some r := by
    intro g r hg
    unfold getScaled at hg
    split at hg
    · exact Option.noConfusion hg
    · exact ⟨_, ‹_›, hg⟩
  cases f <;>
    first
    | (obtain ⟨j, hj, hc⟩ := key _ _ ‹getScaled payload ScaledField.latitude = _›
       exact ⟨j, hj, by simp [encode, hc, finalAssign, ScaledField.get]⟩)
    | (obtain ⟨j, hj, hc⟩ := key _ _ ‹getScaled payload ScaledField.longitude = _›
       exact ⟨j, hj, by simp [encode, hc, finalAssign, ScaledField.get]⟩)
    | (obtain ⟨j, hj, hc⟩ := key _ _ ‹getScaled payload ScaledField.altitude = _›
       exact ⟨j, hj, by simp [encode, hc, finalAssign, ScaledField.get]⟩)
    | (obtain ⟨j, hj, hc⟩ := key _ _ ‹getScaled payload ScaledField.heading = _›
       exact ⟨j, hj, by simp [encode, hc, finalAssign, ScaledField.get]⟩)
    | (obtain ⟨j, hj, hc⟩ := key _ _ ‹getScaled payload ScaledField.headingConf = _›
       exact ⟨j, hj, by simp [encode, hc, finalAssign, ScaledField.get]⟩)
    | (obtain ⟨j, hj, hc⟩ := key _ _ ‹getScaled payload ScaledField.speed = _›
       exact ⟨j, hj, by simp [encode, hc, finalAssign, ScaledField.get]⟩)
    | (obtain ⟨j, hj, hc⟩ := key _ _ ‹getScaled payload ScaledField.speedConf = _›
       exact ⟨j, hj, by simp [encode, hc, finalAssign, ScaledField.get]⟩)
    | (obtain ⟨j, hj, hc⟩ := key _ _ ‹getScaled payload ScaledField.length = _›
       exact ⟨j, hj, by simp [encode, hc, finalAssign, ScaledField.get]⟩)
    | (obtain ⟨j, hj, hc⟩ := key _ _ ‹getScaled payload ScaledField.width = _›
       exact ⟨j, hj, by simp [encode, hc, finalAssign, ScaledField.get]⟩)
    | (obtain ⟨j, hj, hc⟩ := key _ _ ‹getScaled payload ScaledField.acceleration = _›
       exact ⟨j, hj, by simp [encode, hc, finalAssign, ScaledField.get]⟩)
    | (obtain ⟨j, hj, hc⟩ := key _ _ ‹getScaled payload ScaledField.yawRate = _›
       exact ⟨j, hj, by simp [encode, hc, finalAssign, ScaledField.get]⟩)

/-- The JSON object of `buildJSON` holds, under the key of each scaled field, the
`decode` of the message field as a floating-point number. -/
theorem buildJSON_decode (config_s : Config) (c : Persistence) (message : Cam) (t : ℚ)
    (rssi : Int) (include_fields : Bool) (time_now : ℚ) (f : ScaledField) :
    (buildJSON config_s c message t rssi include_fields time_now).json_payload.lookup f.key =
      some (.number_float (decode f (f.get message))) := by
  cases f <;> cases include_fields <;>
    simp [buildJSON, List.lookup, ScaledField.key, ScaledField.get]

/-- The conversion line of a scaled field never throws on a floating-point number. -/
theorem convert_number_float (f : ScaledField) (q : ℚ) :
    ∃ r, convert f (.number_float q) = some r := by
  rw [convert_eq]
  simp only [scaleIn, Json.toLong, Json.toDouble, Option.map_some']
  split <;> exact ⟨_, rfl⟩

/-- The scaled-field path accepts every JSON object that `buildJSON` produces, as
soon as the converter of the special-vehicle container accepts the constant
sub-object `buildJSON` writes. -/
theorem on_message_scaled_buildJSON (config_s : Config) (c : Persistence) (message : Cam)
    (t : ℚ) (rssi : Int) (include_fields : Bool) (time_now : ℚ) (runtime_now_ms : Int)
    (from_json_ok : Json → Bool)
    (hok : from_json_ok (.object [("publicTransportContainer",
      .object [("embarkationStatus", .boolean false)])]) = true) :
    ∃ cam, on_message_scaled runtime_now_ms from_json_ok
      (.object (buildJSON config_s c message t rssi include_fields time_now).json_payload) =
        some cam := by
  have hS : ∀ f, ∃ r, getScaled
      (.object (buildJSON config_s c message t rssi include_fields time_now).json_payload) f =
        some r := by
    intro f
    have hd := buildJSON_decode config_s c message t rssi include_fields time_now f
    simp only [getScaled, Json.index, hd, Option.getD_some]
    exact convert_number_float f _
  obtain ⟨r1, h1⟩ := hS .latitude
  obtain ⟨r2, h2⟩ := hS .longitude
  obtain ⟨r3, h3⟩ := hS .altitude
  obtain ⟨r4, h4⟩ := hS .heading
  obtain ⟨r5, h5⟩ := hS .headingConf
  obtain ⟨r6, h6⟩ := hS .speed
  obtain ⟨r7, h7⟩ := hS .speedConf
  obtain ⟨r8, h8⟩ := hS .length
  obtain ⟨r9, h9⟩ := hS .width
  obtain ⟨r10, h10⟩ := hS .acceleration
  obtain ⟨r11, h11⟩ := hS .yawRate
  have hL : ∀ key v, (buildJSON config_s c message t rssi include_fields
      time_now).json_payload.lookup key = some (.number_integer v) →
      getLong (.object (buildJSON config_s c message t rssi include_fields
        time_now).json_payload) key = some v := by
    intro key v hv
    simp [getLong, Json.index, hv, Json.toLong]
  have hF : ∀ key b, (buildJSON config_s c message t rssi include_fields
      time_now).json_payload.lookup key = some (.boolean b) →
      getFlag (.object (buildJSON config_s c message t rssi include_fields
        time_now).json_payload) key = some b := by
    intro key b hb
    simp [getFlag, Json.atKey, hb, Json.toBool]
  have l1 := hL "stationID" message.stationID
    (by cases include_fields <;> simp [buildJSON, List.lookup])
  have l2 := hL "semiMajorConf" message.semiMajorConfidence
    (by cases include_fields <;> simp [buildJSON, List.lookup])
  have l3 := hL "semiMinorConf" message.semiMinorConfidence
    (by cases include_fields <;> simp [buildJSON, List.lookup])
  have l4 := hL "semiMajorOrient" message.semiMajorOrientation
    (by cases include_fields <;> simp [buildJSON, List.lookup])
  have l5 := hL "altitudeConf" message.altitudeConfidence
    (by cases include_fields <;> simp [buildJSON, List.lookup])
  have l6 := hL "stationType" message.stationType
    (by cases include_fields <;> simp [buildJSON, List.lookup])
  have l7 := hL "curvature" message.curvatureValue
    (by cases include_fields <;> simp [buildJSON, List.lookup])
  have f0 := hF "brakePedal" (controlFlag message.accelerationControl 0)
    (by cases include_fields <;> simp [buildJSON, List.lookup])
  have f1 := hF "gasPedal" (controlFlag message.accelerationControl 1)
    (by cases include_fields <;> simp [buildJSON, List.lookup])
  have f2 := hF "emergencyBrake" (controlFlag message.accelerationControl 2)
    (by cases include_fields <;> simp [buildJSON, List.lookup])
  have f3 := hF "collisionWarning" (controlFlag message.accelerationControl 3)
    (by cases include_fields <;> simp [buildJSON, List.lookup])
  have f4 := hF "accEngaged" (controlFlag message.accelerationControl 4)
    (by cases include_fields <;> simp [buildJSON, List.lookup])
  have f5 := hF "cruiseControl" (controlFlag message.accelerationControl 5)
    (by cases include_fields <;> simp [buildJSON, List.lookup])
  have f6 := hF "speedLimiter" (controlFlag message.accelerationControl 6)
    (by cases include_fields <;> simp [buildJSON, List.lookup])
  have hD : ∃ d, getDriveDirection (.object (buildJSON config_s c message t rssi
      include_fields time_now).json_payload) = some d := by
    simp [getDriveDirection, Json.index]
  obtain ⟨d, hd⟩ := hD
  have hV : getSpecialVehicle from_json_ok (.object (buildJSON config_s c message t rssi
      include_fields time_now).json_payload) =
      some (.object [("publicTransportContainer",
        .object [("embarkationStatus", .boolean false)])]) := by
    cases include_fields <;>
      simp [getSpecialVehicle, Json.atKey, buildJSON, List.lookup, hok]
  simp only [on_message_scaled, h1, h2, h3, h4, h5, h6, h7, h8, h9, h10, h11, l1, l2, l3,
    l4, l5, l6, l7, f0, f1, f2, f3, f4, f5, f6, hd, hV]
  exact ⟨_, rfl⟩

/-- Encoding a decoded raw value gives the raw value back, unless the raw value is a
sentinel multiplied by the scale factor. -/
theorem scaleIn_scaleOut (ss : List Int) (n : Nat) (v : Int)
    (h : ∀ s ∈ ss, v ≠ s * 10 ^ n) :
    scaleIn ss n (.number_float (scaleOut ss n v)) = some v := by
  have hpow : ((10 : ℚ) ^ n) ≠ 0 := pow_ne_zero _ (by norm_num)
  unfold scaleIn scaleOut
  by_cases hv : v ∈ ss
  · have hany : ss.any (fun s => (Json.number_float (v : ℚ)).eqInt s) = true := by
      rw [List.any_eq_true]
      exact ⟨v, hv, by simp [Json.eqInt]⟩
    simp only [hv, if_true, hany, Json.toLong, truncToLong_intCast]
  · have hany : ss.any (fun s => (Json.number_float ((v : ℚ) / 10 ^ n)).eqInt s) = false := by
      rw [List.any_eq_false]
      intro s hs
      simp only [Json.eqInt, decide_eq_true_eq]
      intro heq
      apply h s hs
      have h2 : (v : ℚ) = (s : ℚ) * 10 ^ n := by
        rw [← heq]; field_simp
      exact_mod_cast h2
    simp only [hv, if_false, hany, Json.toDouble, Option.map_some', Bool.false_eq_true]
    rw [div_mul_cancel₀ _ hpow, truncToLong_intCast]

/-- Decoding, encoding and decoding again gives the first decoded value. -/
theorem scaleOut_scaleIn_scaleOut (ss : List Int) (n : Nat) (v : Int) :
    (scaleIn ss n (.number_float (scaleOut ss n v))).map (scaleOut ss n) =
      some (scaleOut ss n v) := by
  have hpow : ((10 : ℚ) ^ n) ≠ 0 := pow_ne_zero _ (by norm_num)
  by_cases hcol : ∀ s ∈ ss, v ≠ s * 10 ^ n
  · rw [scaleIn_scaleOut ss n v hcol]; rfl
  · push_neg at hcol
    obtain ⟨s, hs, hvs⟩ := hcol
    by_cases hv : v ∈ ss
    · have hany : ss.any (fun s => (Json.number_float (v : ℚ)).eqInt s) = true := by
        rw [List.any_eq_true]
        exact ⟨v, hv, by simp [Json.eqInt]⟩
      simp only [scaleIn, scaleOut, hv, if_true, hany, Json.toLong, truncToLong_intCast,
        Option.map_some']
    · have hq : (v : ℚ) / 10 ^ n = (s : ℚ) := by
        rw [hvs]; push_cast; field_simp
      have hany : ss.any (fun s => (Json.number_float ((v : ℚ) / 10 ^ n)).eqInt s) = true := by
        rw [List.any_eq_true]
        exact ⟨s, hs, by simp [Json.eqInt, hq]⟩
      simp only [scaleIn, scaleOut, hv, if_false, hany, if_true, Json.toLong, Option.map_some']
      rw [hq, truncToLong_intCast]
      simp [hs]

/-! ### Sentinels and round trips (claims 1 to 4) -/

/-- C1 as stated fails: the "out of range" heading confidence 126 is a sentinel of
`headingConf`, it is decoded to 126, and the scaled-field path stores 127 for it. -/
theorem C1_sentinel_round_trip_counterexample :
    ¬ (126 ∈ sentinels .headingConf →
        encode .headingConf (.number_float (decode .headingConf 126)) = some 126) := by
  decide

/-- C1 amended: every sentinel of the nine value fields, and the sentinel 127 of the two
confidences, survives both round trips (decode then encode, and encode then decode,
whether the JSON number is an integer or a float); whatever the payload holds for
`headingConf` or `speedConf`, the scaled-field path stores 127. -/
theorem C1_sentinel_round_trip (f : ScaledField) (S : Int) (hS : S ∈ sentinels f)
    (h126 : isValueField f = false → S = 127) :
    encode f (.number_float (decode f S)) = some S ∧
    (encode f (.number_integer S)).map (decode f) = some (S : ℚ) ∧
    (encode f (.number_float (S : ℚ))).map (decode f) = some (S : ℚ) ∧
    (∀ j r, encode .headingConf j = some r → r = 127) ∧
    (∀ j r, encode .speedConf j = some r → r = 127) := by
  refine ⟨?_, ?_, ?_, ?_, ?_⟩
  · cases f <;>
      simp only [sentinels, List.mem_cons, List.mem_singleton, List.mem_nil_iff,
        or_false] at hS <;>
      first
      | (subst hS; decide)
      | (rcases hS with rfl | rfl <;> first | decide | exact absurd (h126 rfl) (by decide))
  · cases f <;>
      simp only [sentinels, List.mem_cons, List.mem_singleton, List.mem_nil_iff,
        or_false] at hS <;>
      first
      | (subst hS; decide)
      | (rcases hS with rfl | rfl <;> first | decide | exact absurd (h126 rfl) (by decide))
  · cases f <;>
      simp only [sentinels, List.mem_cons, List.mem_singleton, List.mem_nil_iff,
        or_false] at hS <;>
      first
      | (subst hS; decide)
      | (rcases hS with rfl | rfl <;> first | decide | exact absurd (h126 rfl) (by decide))
  · intro j r h
    simp only [encode, finalAssign, Option.map_eq_some'] at h
    obtain ⟨_, _, rfl⟩ := h
    rfl
  · intro j r h
    simp only [encode, finalAssign, Option.map_eq_some'] at h
    obtain ⟨_, _, rfl⟩ := h
    rfl

/-- The speed sentinel 16383 survives both round trips. -/
theorem C1_sentinel_round_trip_witness :
    encode .speed (.number_float (decode .speed 16383)) = some 16383 ∧
    (encode .speed (.number_integer 16383)).map (decode .speed) = some ((16383 : Int) : ℚ) ∧
    (encode .speed (.number_float ((16383 : Int) : ℚ))).map (decode .speed) =
      some ((16383 : Int) : ℚ) ∧
    (∀ j r, encode .headingConf j = some r → r = 127) ∧
    (∀ j r, encode .speedConf j = some r → r = 127) :=
  C1_sentinel_round_trip .speed 16383 (by decide) (by decide)

/-- C2: in exact arithmetic, for each of the nine value fields and every raw integer v
in the field's range, the scaled-field path of `on_message` gives back v from the
external value `buildJSON` produces for v: both for the field's two conversion lines
taken alone and for every message the path builds from the whole JSON object that
`buildJSON` produces for a message holding v. -/
theorem C2_raw_round_trip (f : ScaledField) (v : Int) (hf : isValueField f = true)
    (hlo : (rawRange f).1 ≤ v) (hhi : v ≤ (rawRange f).2) :
    encode f (.number_float (decode f v)) = some v ∧
    ∀ (config_s : Config) (c : Persistence) (message : Cam) (t : ℚ) (rssi : Int)
      (include_fields : Bool) (time_now : ℚ) (runtime_now_ms : Int)
      (from_json_ok : Json → Bool) (cam : Cam),
      f.get message = v →
      on_message_scaled runtime_now_ms from_json_ok
        (.object (buildJSON config_s c message t rssi include_fields time_now).json_payload) =
          some cam →
      f.get cam = v := by
  have hc : ∀ s ∈ sentinels f, v ≠ s * 10 ^ exponent f := by
    intro s hs
    cases f <;> simp [sentinels, exponent, rawRange, isValueField] at hs hlo hhi hf ⊢ <;>
      omega
  have h := scaleIn_scaleOut (sentinels f) (exponent f) v hc
  rw [← decode_eq, ← convert_eq] at h
  have he : encode f (.number_float (decode f v)) = some v := by
    rw [encode_eq_convert f hf, h]
  refine ⟨he, ?_⟩
  intro config_s c message t rssi include_fields time_now runtime_now_ms from_json_ok cam
    hv hcam
  obtain ⟨j, hj, hje⟩ := on_message_scaled_encode _ _ _ _ hcam f
  have hd := buildJSON_decode config_s c message t rssi include_fields time_now f
  simp only [Json.index, hd, Option.getD_some, Option.some.injEq] at hj
  rw [← hj, hv, he] at hje
  exact (Option.some.inj hje).symm

/-- The raw speed 123 (1.23 m/s) of the sample message comes back as 123, from the
conversion lines and from the whole JSON object of `buildJSON`, which the
scaled-field path accepts. -/
theorem C2_raw_round_trip_witness :
    encode .speed (.number_float (decode .speed 123)) = some 123 ∧
    ∃ cam, on_message_scaled 0 (fun _ => true)
      (.object (buildJSON sampleConfig Persistence.empty sampleCam 0 0 false
        0).json_payload) = some cam ∧ cam.speedValue = 123 := by
  obtain ⟨cam, hcam⟩ := on_message_scaled_buildJSON sampleConfig Persistence.empty sampleCam
    0 0 false 0 0 (fun _ => true) rfl
  have h := C2_raw_round_trip .speed 123 (by decide) (by decide) (by decide)
  exact ⟨h.1, cam, hcam, h.2 _ _ sampleCam _ _ _ _ _ _ cam rfl hcam⟩

/-! ### Rounding to the nearest `double` -/

theorem roundHalfEven_err (x : ℚ) : |(roundHalfEven x : ℚ) - x| ≤ 1 / 2 := by
  unfold roundHalfEven
  have h1 := Int.floor_le x
  have h2 := Int.lt_floor_add_one x
  split_ifs <;> push_cast <;> rw [abs_le] <;> constructor <;> linarith

theorem roundHalfEven_eq (x : ℚ) (m : Int) (h : |x - m| < 1 / 2) : roundHalfEven x = m := by
  rw [abs_lt] at h
  unfold roundHalfEven
  by_cases hx : (m : ℚ) ≤ x
  · have hf : ⌊x⌋ = m := Int.floor_eq_iff.mpr ⟨hx, by linarith⟩
    rw [hf, if_pos (by linarith)]
  · have hf : ⌊x⌋ = m - 1 :=
      Int.floor_eq_iff.mpr ⟨by push_cast; linarith, by push_cast; linarith⟩
    rw [hf]
    push_cast
    rw [if_neg (by linarith), if_pos (by linarith)]
    ring

theorem roundDouble_err (q : ℚ) : |roundDouble q - q| ≤ |q| / 2 ^ 53 := by
  unfold roundDouble
  split_ifs with h0
  · simp [h0]
  · have hq : 0 < |q| := abs_pos.mpr h0
    have hu : (0 : ℚ) < 2 ^ (Int.log 2 |q| - 52) := zpow_pos (by norm_num) _
    have hle : (2 : ℚ) ^ Int.log 2 |q| ≤ |q| := by
      have h := Int.zpow_log_le_self (b := 2) (by norm_num) hq
      simpa using h
    have hue : (2 : ℚ) ^ (Int.log 2 |q| - 52) = 2 ^ Int.log 2 |q| / 2 ^ 52 := by
      rw [zpow_sub₀ (by norm_num)]
      norm_cast
    have hr := roundHalfEven_err (q / 2 ^ (Int.log 2 |q| - 52))
    have hs : (roundHalfEven (q / 2 ^ (Int.log 2 |q| - 52)) : ℚ) * 2 ^ (Int.log 2 |q| - 52) - q =
        ((roundHalfEven (q / 2 ^ (Int.log 2 |q| - 52)) : ℚ) - q / 2 ^ (Int.log 2 |q| - 52)) *
          2 ^ (Int.log 2 |q| - 52) := by
      field_simp
    rw [hs, abs_mul, abs_of_pos hu]
    calc |(roundHalfEven (q / 2 ^ (Int.log 2 |q| - 52)) : ℚ) - q / 2 ^ (Int.log 2 |q| - 52)| *
          2 ^ (Int.log 2 |q| - 52) ≤ 1 / 2 * 2 ^ (Int.log 2 |q| - 52) :=
          mul_le_mul_of_nonneg_right hr hu.le
      _ = 2 ^ Int.log 2 |q| / 2 ^ 53 := by rw [hue]; ring
      _ ≤ |q| / 2 ^ 53 := by gcongr

theorem roundDouble_eq (q : ℚ) (e m : Int) (h1 : (2 : ℚ) ^ e ≤ |q|) (h2 : |q| < 2 ^ (e + 1))
    (h3 : |q / 2 ^ (e - 52) - m| < 1 / 2) : roundDouble q = m * 2 ^ (e - 52) := by
  have hq : 0 < |q| := lt_of_lt_of_le (zpow_pos (by norm_num) _) h1
  have hlog : Int.log 2 |q| = e := by
    apply le_antisymm
    · have h := (Int.lt_zpow_iff_log_lt (b := 2) (by norm_num) hq (x := e + 1)).mp
        (by simpa using h2)
      omega
    · exact (Int.zpow_le_iff_le_log (b := 2) (by norm_num) hq).mp (by simpa using h1)
  unfold roundDouble
  rw [if_neg (abs_pos.mp hq), hlog, roundHalfEven_eq _ m h3]

theorem roundHalfEven_intCast (z : Int) : roundHalfEven (z : ℚ) = z :=
  roundHalfEven_eq _ z (by simp)

theorem roundDouble_intCast (z : Int) (h : |z| < 2 ^ 53) : roundDouble (z : ℚ) = z := by
  by_cases h0 : z = 0
  · simp [h0, roundDouble]
  · have hzq : (z : ℚ) ≠ 0 := by exact_mod_cast h0
    have hq : 0 < |(z : ℚ)| := abs_pos.mpr hzq
    have hlt : Int.log 2 |(z : ℚ)| < 53 := by
      apply (Int.lt_zpow_iff_log_lt (b := 2) (by norm_num) hq (x := 53)).mp
      rw [show ((2 : ℕ) : ℚ) ^ (53 : ℤ) = 2 ^ (53 : ℕ) by norm_num]
      exact_mod_cast h
    obtain ⟨j, hj⟩ : ∃ j : ℕ, Int.log 2 |(z : ℚ)| - 52 = -(j : Int) :=
      ⟨(52 - Int.log 2 |(z : ℚ)|).toNat, by omega⟩
    unfold roundDouble
    rw [if_neg hzq, hj, zpow_neg, zpow_natCast]
    have hc : (z : ℚ) / ((2 : ℚ) ^ j)⁻¹ = ((z * 2 ^ j : Int) : ℚ) := by
      push_cast
      field_simp
    rw [hc, roundHalfEven_intCast]
    push_cast
    field_simp

theorem roundDouble_div_mul_err (z k : ℚ) (hk : 0 < k) (hz : |z| ≤ 2 ^ 32) :
    |roundDouble (z / k) * k - z| ≤ 1 / 2 ^ 21 := by
  have h := roundDouble_err (z / k)
  have e : roundDouble (z / k) * k - z = (roundDouble (z / k) - z / k) * k := by
    field_simp
  have ea : |z / k| = |z| / k := by rw [abs_div, abs_of_pos hk]
  rw [ea] at h
  rw [e, abs_mul, abs_of_pos hk]
  calc |roundDouble (z / k) - z / k| * k ≤ |z| / k / 2 ^ 53 * k :=
        mul_le_mul_of_nonneg_right h hk.le
    _ = |z| / 2 ^ 53 := by field_simp; ring
    _ ≤ 2 ^ 32 / 2 ^ 53 := by gcongr
    _ = 1 / 2 ^ 21 := by norm_num

theorem roundDouble_mul_err (x : ℚ) (hx : |x| ≤ 2 ^ 32) :
    |roundDouble x - x| ≤ 1 / 2 ^ 21 := by
  calc |roundDouble x - x| ≤ |x| / 2 ^ 53 := roundDouble_err x
    _ ≤ 2 ^ 32 / 2 ^ 53 := by gcongr
    _ = 1 / 2 ^ 21 := by norm_num

/-- One round trip of a raw value through the two patterns in `double` arithmetic:
the value comes back as itself or as its neighbour toward zero, and the two decoded
values differ by at most one unit of the scale and a millionth of it. -/
theorem scaleWith_round_trip (ss : List Int) (n : Nat) (v : Int)
    (hv : |v| ≤ 2 ^ 31) (hns : v ∉ ss) (hc : ∀ s ∈ ss, v ≠ s * 10 ^ n)
    (hlo : 0 < v → v - 1 ∉ ss) (hhi : v < 0 → v + 1 ∉ ss) :
    ∃ w, scaleInWith roundDouble ss n (.number_float (scaleOutWith roundDouble ss n v)) =
        some w ∧
      (w = v ∨ (0 < v ∧ w = v - 1) ∨ (v < 0 ∧ w = v + 1)) ∧
      |scaleOutWith roundDouble ss n w - scaleOutWith roundDouble ss n v| ≤
        (1 + 1 / 10 ^ 6) / 10 ^ n := by
  have hk : (0 : ℚ) < 10 ^ n := by positivity
  have hvq : |(v : ℚ)| ≤ 2 ^ 31 := by exact_mod_cast hv
  have hvb : (-(2 : ℚ) ^ 31 ≤ v) ∧ ((v : ℚ) ≤ 2 ^ 31) := abs_le.mp hvq
  have ha : roundDouble (v : ℚ) = v :=
    roundDouble_intCast v (lt_of_le_of_lt hv (by norm_num))
  have hout : scaleOutWith roundDouble ss n v = roundDouble ((v : ℚ) / 10 ^ n) := by
    simp [scaleOutWith, hns, ha]
  have hdk : |roundDouble ((v : ℚ) / 10 ^ n) * 10 ^ n - v| ≤ 1 / 2 ^ 21 :=
    roundDouble_div_mul_err v _ hk (le_trans hvq (by norm_num))
  have hdk2 := abs_le.mp hdk
  -- the decoded value is no sentinel
  have hany : ss.any (fun s => (Json.number_float (roundDouble ((v : ℚ) / 10 ^ n))).eqInt s) =
      false := by
    rw [List.any_eq_false]
    intro s hs
    simp only [Json.eqInt, decide_eq_true_eq]
    intro hds
    rw [hds] at hdk
    have h1 : |((s * 10 ^ n - v : Int) : ℚ)| < 1 := by
      push_cast
      exact lt_of_le_of_lt hdk (by norm_num)
    have h2 : |s * 10 ^ n - v| < 1 := by exact_mod_cast h1
    have h3 := Int.abs_lt_one_iff.mp h2
    exact hc s hs (by omega)
  -- the product
  have hdb : |roundDouble ((v : ℚ) / 10 ^ n) * 10 ^ n| ≤ 2 ^ 32 := by
    rw [abs_le]
    constructor <;> linarith [hdk2.1, hdk2.2, hvb.1, hvb.2]
  have hp := abs_le.mp (roundDouble_mul_err _ hdb)
  have hin : scaleInWith roundDouble ss n
      (.number_float (scaleOutWith roundDouble ss n v)) =
      some (Json.truncToLong (roundDouble (roundDouble ((v : ℚ) / 10 ^ n) * 10 ^ n))) := by
    rw [hout]
    simp only [scaleInWith, hany, Bool.false_eq_true, if_false, Json.toDoubleWith,
      Option.map_some']
  -- the stored value
  have hw : ∃ w : Int,
      Json.truncToLong (roundDouble (roundDouble ((v : ℚ) / 10 ^ n) * 10 ^ n)) = w ∧
      (w = v ∨ (0 < v ∧ w = v - 1) ∨ (v < 0 ∧ w = v + 1)) := by
    refine ⟨_, rfl, ?_⟩
    rcases lt_trichotomy v 0 with hneg | hzero | hpos
    · have hvq1 : (v : ℚ) ≤ -1 := by exact_mod_cast (by omega : v ≤ -1)
      rw [truncToLong_of_nonpos (by linarith [hp.2, hdk2.2])]
      have h1 : ⌈roundDouble (roundDouble ((v : ℚ) / 10 ^ n) * 10 ^ n)⌉ ≤ v + 1 := by
        rw [Int.ceil_le]
        push_cast
        linarith [hp.2, hdk2.2]
      have h2 : v - 1 < ⌈roundDouble (roundDouble ((v : ℚ) / 10 ^ n) * 10 ^ n)⌉ := by
        rw [Int.lt_ceil]
        push_cast
        linarith [hp.1, hdk2.1]
      omega
    · subst hzero
      simp [roundDouble, Json.truncToLong]
    · have hvq1 : (1 : ℚ) ≤ v := by exact_mod_cast (by omega : 1 ≤ v)
      rw [truncToLong_of_nonneg (by linarith [hp.1, hdk2.1])]
      have h1 : v - 1 ≤ ⌊roundDouble (roundDouble ((v : ℚ) / 10 ^ n) * 10 ^ n)⌋ := by
        rw [Int.le_floor]
        push_cast
        linarith [hp.1, hdk2.1]
      have h2 : ⌊roundDouble (roundDouble ((v : ℚ) / 10 ^ n) * 10 ^ n)⌋ < v + 1 := by
        rw [Int.floor_lt]
        push_cast
        linarith [hp.2, hdk2.2]
      omega
  obtain ⟨w, hwe, hwv⟩ := hw
  refine ⟨w, by rw [hin, hwe], hwv, ?_⟩
  have hwns : w ∉ ss := by
    rcases hwv with rfl | ⟨h0, rfl⟩ | ⟨h0, rfl⟩
    · exact hns
    · exact hlo h0
    · exact hhi h0
  have hwabs : |w| ≤ 2 ^ 31 + 1 := by
    rw [abs_le] at hv ⊢
    rcases hwv with rfl | ⟨h0, rfl⟩ | ⟨h0, rfl⟩ <;> constructor <;> omega
  have hwq : |(w : ℚ)| ≤ 2 ^ 31 + 1 := by exact_mod_cast hwabs
  have hb : roundDouble (w : ℚ) = w :=
    roundDouble_intCast w (lt_of_le_of_lt hwabs (by norm_num))
  have hout2 : scaleOutWith roundDouble ss n w = roundDouble ((w : ℚ) / 10 ^ n) := by
    simp [scaleOutWith, hwns, hb]
  have hwk := abs_le.mp
    (roundDouble_div_mul_err w _ hk (le_trans hwq (by norm_num)))
  have hwv1 : |(w : ℚ) - v| ≤ 1 := by
    rcases hwv with rfl | ⟨h0, rfl⟩ | ⟨h0, rfl⟩ <;> simp
  have hwv2 := abs_le.mp hwv1
  rw [hout, hout2]
  have e : roundDouble ((w : ℚ) / 10 ^ n) - roundDouble ((v : ℚ) / 10 ^ n) =
      (roundDouble ((w : ℚ) / 10 ^ n) * 10 ^ n - roundDouble ((v : ℚ) / 10 ^ n) * 10 ^ n) /
        10 ^ n := by
    field_simp
    ring
  rw [e, abs_div, abs_of_pos hk]
  apply div_le_div_of_nonneg_right _ hk.le
  rw [abs_le]
  constructor <;> norm_num <;> linarith [hwk.1, hwk.2, hdk2.1, hdk2.2, hwv2.1, hwv2.2]

/-! ### The value codec in binary64 arithmetic -/

/-- With no rounding at all the patterns are those of the exact codec. -/
theorem scaleOutWith_id (ss : List Int) (n : Nat) (raw : Int) :
    scaleOutWith id ss n raw = scaleOut ss n raw := rfl

theorem scaleInWith_id (ss : List Int) (n : Nat) (j : Json) :
    scaleInWith id ss n j = scaleIn ss n j := by
  cases j <;> rfl

theorem decodeWith_id (f : ScaledField) (v : Int) : decodeWith id f v = decode f v := by
  cases f <;> rfl

theorem convertWith_id (f : ScaledField) (j : Json) : convertWith id f j = convert f j := by
  cases f <;> cases j <;> rfl

theorem decodeWith_eq (fl : ℚ → ℚ) (f : ScaledField) (v : Int) :
    decodeWith fl f v = scaleOutWith fl (sentinels f) (exponent f) v := by
  cases f <;> rfl

theorem convertWith_eq (fl : ℚ → ℚ) (f : ScaledField) (j : Json) :
    convertWith fl f j = scaleInWith fl (sentinels f) (exponent f) j := by
  cases f <;> rfl

/-- On a value field no final assignment intervenes. -/
theorem encodeDouble_eq_convertWith (f : ScaledField) (hf : isValueField f = true)
    (j : Json) : encodeDouble f j = convertWith roundDouble f j := by
  have h : finalAssign f = id := by
    funext r
    cases f <;> first | rfl | exact absurd hf (by decide)
  simp [encodeDouble, h]

/-- The value stored for a `double` that is no sentinel: the rounded product, cast. -/
theorem encodeDouble_float (f : ScaledField) (hf : isValueField f = true) (x : ℚ)
    (hx : ∀ s ∈ sentinels f, x ≠ (s : ℚ)) :
    encodeDouble f (.number_float x) =
      some (Json.truncToLong (roundDouble (x * 10 ^ exponent f))) := by
  have hany : (sentinels f).any (fun s => (Json.number_float x).eqInt s) = false := by
    rw [List.any_eq_false]
    intro s hs
    simpa [Json.eqInt] using hx s hs
  rw [encodeDouble_eq_convertWith f hf, convertWith_eq, scaleInWith, hany]
  simp only [Bool.false_eq_true, if_false, Json.toDoubleWith, Option.map_some']

/-- The external value of a raw value that is no sentinel: the rounded quotient. -/
theorem decodeDouble_eq_round (f : ScaledField) (v : Int) (hv : v ∉ sentinels f)
    (hb : |v| < 2 ^ 53) :
    decodeDouble f v = roundDouble ((v : ℚ) / 10 ^ exponent f) := by
  rw [decodeDouble, decodeWith_eq, scaleOutWith, if_neg hv, roundDouble_intCast v hb]

/-- A concrete rounding: e is the binary exponent of q and m its 53-bit significand. -/
theorem roundDouble_eval (q r : ℚ) (e m : Int) (h1 : (2 : ℚ) ^ e ≤ |q|)
    (h2 : |q| < 2 ^ (e + 1)) (h3 : |q / 2 ^ (e - 52) - m| < 1 / 2)
    (hr : (m : ℚ) * 2 ^ (e - 52) = r) : roundDouble q = r := by
  rw [roundDouble_eq q e m h1 h2 h3, hr]

theorem decodeDouble_speed_58 :
    decodeDouble .speed 58 = 5224175567749775 / 9007199254740992 := by
  rw [decodeDouble_eq_round .speed 58 (by decide) (by norm_num)]
  exact roundDouble_eval _ _ (-1) 5224175567749775 (by norm_num [exponent, le_abs])
    (by norm_num [exponent, abs_lt]) (by norm_num [exponent, abs_lt]) (by norm_num)

theorem encodeDouble_speed_58 :
    encodeDouble .speed (.number_float (decodeDouble .speed 58)) = some 57 := by
  rw [decodeDouble_speed_58, encodeDouble_float .speed (by decide) _ (by norm_num [sentinels]),
    roundDouble_eval _ (8162774324609023 / 140737488355328) 5 8162774324609023
      (by norm_num [exponent, le_abs])
    (by norm_num [exponent, abs_lt]) (by norm_num [exponent, abs_lt]) (by norm_num),
    truncToLong_eq_of_nonneg (z := 57) (by norm_num) (by norm_num) (by norm_num)]

theorem decodeDouble_speed_57 :
    decodeDouble .speed 57 = 5134103575202365 / 9007199254740992 := by
  rw [decodeDouble_eq_round .speed 57 (by decide) (by norm_num)]
  exact roundDouble_eval _ _ (-1) 5134103575202365 (by norm_num [exponent, le_abs])
    (by norm_num [exponent, abs_lt]) (by norm_num [exponent, abs_lt]) (by norm_num)

theorem decodeDouble_speed_29 :
    decodeDouble .speed 29 = 5224175567749775 / 18014398509481984 := by
  rw [decodeDouble_eq_round .speed 29 (by decide) (by norm_num)]
  exact roundDouble_eval _ _ (-2) 5224175567749775 (by norm_num [exponent, le_abs])
    (by norm_num [exponent, abs_lt]) (by norm_num [exponent, abs_lt]) (by norm_num)

theorem encodeDouble_speed_29 :
    encodeDouble .speed (.number_float (decodeDouble .speed 29)) = some 28 := by
  rw [decodeDouble_speed_29, encodeDouble_float .speed (by decide) _ (by norm_num [sentinels]),
    roundDouble_eval _ (8162774324609023 / 281474976710656) 4 8162774324609023
      (by norm_num [exponent, le_abs])
    (by norm_num [exponent, abs_lt]) (by norm_num [exponent, abs_lt]) (by norm_num),
    truncToLong_eq_of_nonneg (z := 28) (by norm_num) (by norm_num) (by norm_num)]

theorem decodeDouble_speed_116 :
    decodeDouble .speed 116 = 5224175567749775 / 4503599627370496 := by
  rw [decodeDouble_eq_round .speed 116 (by decide) (by norm_num)]
  exact roundDouble_eval _ _ 0 5224175567749775 (by norm_num [exponent, le_abs])
    (by norm_num [exponent, abs_lt]) (by norm_num [exponent, abs_lt]) (by norm_num)

theorem encodeDouble_speed_116 :
    encodeDouble .speed (.number_float (decodeDouble .speed 116)) = some 115 := by
  rw [decodeDouble_speed_116, encodeDouble_float .speed (by decide) _ (by norm_num [sentinels]),
    roundDouble_eval _ (8162774324609023 / 70368744177664) 6 8162774324609023
      (by norm_num [exponent, le_abs])
    (by norm_num [exponent, abs_lt]) (by norm_num [exponent, abs_lt]) (by norm_num),
    truncToLong_eq_of_nonneg (z := 115) (by norm_num) (by norm_num) (by norm_num)]

theorem decodeDouble_speed_115 :
    decodeDouble .speed 115 = 2589569785738035 / 2251799813685248 := by
  rw [decodeDouble_eq_round .speed 115 (by decide) (by norm_num)]
  exact roundDouble_eval _ _ 0 5179139571476070 (by norm_num [exponent, le_abs])
    (by norm_num [exponent, abs_lt]) (by norm_num [exponent, abs_lt]) (by norm_num)

theorem encodeDouble_speed_115 :
    encodeDouble .speed (.number_float (decodeDouble .speed 115)) = some 114 := by
  rw [decodeDouble_speed_115, encodeDouble_float .speed (by decide) _ (by norm_num [sentinels]),
    roundDouble_eval _ (8092405580431359 / 70368744177664) 6 8092405580431359
      (by norm_num [exponent, le_abs])
    (by norm_num [exponent, abs_lt]) (by norm_num [exponent, abs_lt]) (by norm_num),
    truncToLong_eq_of_nonneg (z := 114) (by norm_num) (by norm_num) (by norm_num)]

theorem decodeDouble_speed_859043802072 :
    decodeDouble .speed 859043802072 = 4503863569007247 / 524288 := by
  rw [decodeDouble_eq_round .speed 859043802072 (by decide) (by norm_num)]
  exact roundDouble_eval _ _ 33 4503863569007247 (by norm_num [exponent, le_abs])
    (by norm_num [exponent, abs_lt]) (by norm_num [exponent, abs_lt]) (by norm_num)

theorem encodeDouble_speed_859043802072 :
    encodeDouble .speed (.number_float (decodeDouble .speed 859043802072)) = some 859043802071 := by
  rw [decodeDouble_speed_859043802072, encodeDouble_float .speed (by decide) _ (by norm_num [sentinels]),
    roundDouble_eval _ (7037286826573823 / 8192) 39 7037286826573823
      (by norm_num [exponent, le_abs])
    (by norm_num [exponent, abs_lt]) (by norm_num [exponent, abs_lt]) (by norm_num),
    truncToLong_eq_of_nonneg (z := 859043802071) (by norm_num) (by norm_num) (by norm_num)]

theorem decodeDouble_speed_859043802071 :
    decodeDouble .speed 859043802071 = 1125965892250501 / 131072 := by
  rw [decodeDouble_eq_round .speed 859043802071 (by decide) (by norm_num)]
  exact roundDouble_eval _ _ 33 4503863569002004 (by norm_num [exponent, le_abs])
    (by norm_num [exponent, abs_lt]) (by norm_num [exponent, abs_lt]) (by norm_num)

theorem roundDouble_5_4 :
    roundDouble (5 / 4) = 5 / 4 :=
  roundDouble_eval _ _ 0 5629499534213120 (by norm_num [exponent, le_abs])
    (by norm_num [exponent, abs_lt]) (by norm_num [exponent, abs_lt]) (by norm_num)

theorem encodeDouble_speed_5_4 :
    encodeDouble .speed (.number_float (roundDouble (5 / 4))) = some 125 := by
  rw [roundDouble_5_4, encodeDouble_float .speed (by decide) _ (by norm_num [sentinels]),
    roundDouble_eval _ 125 6 8796093022208000
      (by norm_num [exponent, le_abs])
    (by norm_num [exponent, abs_lt]) (by norm_num [exponent, abs_lt]) (by norm_num),
    truncToLong_eq_of_nonneg (z := 125) (by norm_num) (by norm_num) (by norm_num)]

/-- The two confidences: whatever raw value is decoded, the path stores 127, which is
decoded to 127. -/
theorem roundTripDouble_confidence (u : Int) :
    roundTripDouble .headingConf u = some 127 ∧ roundTripDouble .speedConf u = some 127 := by
  have h127 : roundDouble (127 : ℚ) = 127 := by
    have h := roundDouble_intCast 127 (by norm_num)
    simpa using h
  have hd1 : decodeDouble .headingConf 127 = 127 := by
    simp [decodeDouble, decodeWith, scaleOutWith, h127]
  have hd2 : decodeDouble .speedConf 127 = 127 := by
    simp [decodeDouble, decodeWith, scaleOutWith, h127]
  constructor
  · have h2 : ∃ r, convertWith roundDouble .headingConf
        (.number_float (decodeDouble .headingConf u)) = some r := by
      simp only [convertWith, scaleInWith, Json.toLong, Json.toDoubleWith, Option.map_some']
      split <;> exact ⟨_, rfl⟩
    obtain ⟨r, hr⟩ := h2
    simp [roundTripDouble, encodeDouble, hr, finalAssign, HeadingConfidence_unavailable, hd1]
  · have h2 : ∃ r, convertWith roundDouble .speedConf
        (.number_float (decodeDouble .speedConf u)) = some r := by
      simp only [convertWith, scaleInWith, Json.toLong, Json.toDoubleWith, Option.map_some']
      split <;> exact ⟨_, rfl⟩
    obtain ⟨r, hr⟩ := h2
    simp [roundTripDouble, encodeDouble, hr, finalAssign, SpeedConfidence_unavailable, hd2]

/-- C3 as stated fails twice.  The raw heading confidence 10 (one degree, not a
sentinel) is decoded to 1, stored as 127 and decoded to 127, which is not within 1/10
of 1.  The raw speed 58 is decoded to the double 0.58, whose product with 100 is the
double 57.99999999999999, stored as 57 and decoded to the double 0.57; the two
doubles differ by more than 1/100. -/
theorem C3_no_drift_counterexample :
    ¬ ((10 : Int) ∉ sentinels .headingConf →
        ∃ d, roundTripDouble .headingConf 10 = some d ∧
          |d - decodeDouble .headingConf 10| ≤ 1 / 10 ^ exponent .headingConf) ∧
    ¬ ((58 : Int) ∉ sentinels .speed →
        ∃ d, roundTripDouble .speed 58 = some d ∧
          |d - decodeDouble .speed 58| ≤ 1 / 10 ^ exponent .speed) := by
  constructor
  · intro h
    obtain ⟨d, hd, hb⟩ := h (by decide)
    rw [(roundTripDouble_confidence 10).1] at hd
    cases hd
    have h1 : decodeDouble .headingConf 10 = 1 := by
      rw [decodeDouble_eq_round .headingConf 10 (by decide) (by norm_num)]
      have e : ((10 : Int) : ℚ) / 10 ^ exponent .headingConf = ((1 : Int) : ℚ) := by
        norm_num [exponent]
      rw [e, roundDouble_intCast 1 (by norm_num)]
      norm_num
    rw [h1] at hb
    norm_num [exponent, abs_le] at hb
  · intro h
    obtain ⟨d, hd, hb⟩ := h (by decide)
    rw [roundTripDouble, encodeDouble_speed_58, Option.map_some', decodeDouble_speed_57] at hd
    cases hd
    rw [decodeDouble_speed_58] at hb
    norm_num [exponent, abs_le] at hb

/-- C3 amended: in `double` arithmetic, for each of the nine value fields and every
raw integer v of the field's range that is no sentinel, the scaled-field path stores
for the decoded v either v or its neighbour toward zero, and the value decoded from
that differs from the first decoded value by at most one unit of the scale and a
millionth of it.  The raw speed 29 comes back as 28, and the loss repeats: 116 comes
back as 115 and 115 as 114.  Outside the range the bound fails: the raw speed
859043802072 comes back as 859043802071 and the decoded values differ by more.  For
`headingConf` and `speedConf` the second decoded value is 127 whatever v is. -/
theorem C3_no_drift (f : ScaledField) (v : Int) (hf : isValueField f = true)
    (hlo : (rawRange f).1 ≤ v) (hhi : v ≤ (rawRange f).2) (hv : v ∉ sentinels f) :
    (∃ w, encodeDouble f (.number_float (decodeDouble f v)) = some w ∧
      (w = v ∨ (0 < v ∧ w = v - 1) ∨ (v < 0 ∧ w = v + 1)) ∧
      roundTripDouble f v = some (decodeDouble f w) ∧
      |decodeDouble f w - decodeDouble f v| ≤ (1 + 1 / 10 ^ 6) / 10 ^ exponent f) ∧
    encodeDouble .speed (.number_float (decodeDouble .speed 29)) = some 28 ∧
    encodeDouble .speed (.number_float (decodeDouble .speed 116)) = some 115 ∧
    encodeDouble .speed (.number_float (decodeDouble .speed 115)) = some 114 ∧
    (encodeDouble .speed (.number_float (decodeDouble .speed 859043802072)) =
        some 859043802071 ∧
      (1 + 1 / 10 ^ 6) / 10 ^ exponent .speed <
        |decodeDouble .speed 859043802071 - decodeDouble .speed 859043802072|) ∧
    (∀ u : Int, roundTripDouble .headingConf u = some 127 ∧
      roundTripDouble .speedConf u = some 127) := by
  refine ⟨?_, encodeDouble_speed_29, encodeDouble_speed_116, encodeDouble_speed_115,
    ⟨encodeDouble_speed_859043802072, ?_⟩, roundTripDouble_confidence⟩
  · have hb : |v| ≤ 2 ^ 31 := by
      rw [abs_le]
      cases f <;> simp [rawRange] at hlo hhi <;> constructor <;> omega
    have hc : ∀ s ∈ sentinels f, v ≠ s * 10 ^ exponent f := by
      intro s hs
      cases f <;> simp [sentinels, exponent, rawRange, isValueField] at hs hlo hhi hf ⊢ <;>
        omega
    have h1 : 0 < v → v - 1 ∉ sentinels f := by
      intro h0
      cases f <;> simp [sentinels, rawRange, isValueField] at hv hlo hhi hf ⊢ <;> omega
    have h2 : v < 0 → v + 1 ∉ sentinels f := by
      intro h0
      cases f <;> simp [sentinels, rawRange, isValueField] at hv hlo hhi hf ⊢ <;> omega
    obtain ⟨w, hw, hwv, hd⟩ :=
      scaleWith_round_trip (sentinels f) (exponent f) v hb hv hc h1 h2
    rw [← decodeWith_eq, ← convertWith_eq, ← encodeDouble_eq_convertWith f hf] at hw
    rw [← decodeWith_eq, ← decodeWith_eq] at hd
    have hw2 : encodeDouble f (.number_float (decodeDouble f v)) = some w := hw
    refine ⟨w, hw2, hwv, ?_, hd⟩
    rw [roundTripDouble, hw2, Option.map_some']
  · rw [decodeDouble_speed_859043802071, decodeDouble_speed_859043802072]
    norm_num [exponent, lt_abs]

/-- The raw speed 29 (0.29 m/s) comes back as itself or as 28 (the code stores 28),
and the decoded values differ by at most 1.000001 / 100. -/
theorem C3_no_drift_witness :
    ∃ w, encodeDouble .speed (.number_float (decodeDouble .speed 29)) = some w ∧
      (w = 29 ∨ (0 < (29 : Int) ∧ w = 29 - 1) ∨ ((29 : Int) < 0 ∧ w = 29 + 1)) ∧
      roundTripDouble .speed 29 = some (decodeDouble .speed w) ∧
      |decodeDouble .speed w - decodeDouble .speed 29| ≤
        (1 + 1 / 10 ^ 6) / 10 ^ exponent .speed :=
  (C3_no_drift .speed 29 (by decide) (by decide) (by decide) (by decide)).1

/-- C5: the new-information flag of `buildJSON` is true exactly when the cache has no
record for the station, or the stored latitude or longitude differs from the current
one, or the reception time is at least 1 past the stored one; with `include_fields`
the flag is what the key "newInfo" carries; and from the empty cache the four
observations (1,10,20,0), (1,10,20,0.5), (1,10,20,1.5), (1,11,20,1.6) are new, not
new, new, new. -/
theorem C5_new_info_policy :
    (∀ (config_s : Config) (c : Persistence) (message : Cam) (t : ℚ) (rssi : Int)
        (include_fields : Bool) (time_now : ℚ),
        ((buildJSON config_s c message t rssi include_fields time_now).new_info = true ↔
          (c message.stationID = none ∨
            ∃ r, c message.stationID = some r ∧
              (r.lat ≠ (message.latitude : ℚ) ∨ r.lng ≠ (message.longitude : ℚ) ∨
                t - r.time ≥ 1))) ∧
        (buildJSON config_s c message t rssi true time_now).json_payload.lookup "newInfo" =
          some (.boolean (buildJSON config_s c message t rssi true time_now).new_info)) ∧
    (observe Persistence.empty 1 10 20 0).1 = true ∧
    (observe (observe Persistence.empty 1 10 20 0).2 1 10 20 (1 / 2)).1 = false ∧
    (observe (observe (observe Persistence.empty 1 10 20 0).2 1 10 20 (1 / 2)).2
      1 10 20 (3 / 2)).1 = true ∧
    (observe (observe (observe (observe Persistence.empty 1 10 20 0).2 1 10 20 (1 / 2)).2
      1 10 20 (3 / 2)).2 1 11 20 (8 / 5)).1 = true := by
  refine ⟨?_, ?_, ?_, ?_, ?_⟩
  · intro config_s c message t rssi include_fields time_now
    constructor
    · simp only [buildJSON, new_info]
      cases hc : c message.stationID with
      | none => simp
      | some r => simp [or_assoc]
    · simp [buildJSON, List.lookup]
  · simp [observe, buildJSON, new_info, Persistence.empty]
  · norm_num [observe, buildJSON, new_info, Persistence.empty, Persistence.insert]
  · norm_num [observe, buildJSON, new_info, Persistence.empty, Persistence.insert]
  · norm_num [observe, buildJSON, new_info, Persistence.empty, Persistence.insert]

/-- C6: after `buildJSON` the cache is the old cache with the station's record
replaced by (latitude, longitude, reception time) and every other record unchanged
when the flag is true, and is the old cache when the flag is false. -/
theorem C6_cache_post_state (config_s : Config) (c : Persistence) (message : Cam) (t : ℚ)
    (rssi : Int) (include_fields : Bool) (time_now : ℚ) :
    (buildJSON config_s c message t rssi include_fields time_now).persistence =
      if (buildJSON config_s c message t rssi include_fields time_now).new_info then
        fun k =>
          if k = message.stationID then
            some ⟨(message.latitude : ℚ), (message.longitude : ℚ), t⟩
          else c k
      else c := by
  simp only [buildJSON]
  split <;> rfl

/-! ### The control byte -/

/-- Every message the scaled-field path accepts carries the control byte packed from
the seven flags of the payload. -/
theorem on_message_scaled_control (runtime_now_ms : Int) (from_json_ok : Json → Bool)
    (payload : Json) (cam : Cam)
    (h : on_message_scaled runtime_now_ms from_json_ok payload = some cam) :
    ∃ b0 b1 b2 b3 b4 b5 b6,
      getFlag payload "brakePedal" = some b0 ∧ getFlag payload "gasPedal" = some b1 ∧
      getFlag payload "emergencyBrake" = some b2 ∧
      getFlag payload "collisionWarning" = some b3 ∧
      getFlag payload "accEngaged" = some b4 ∧ getFlag payload "cruiseControl" = some b5 ∧
      getFlag payload "speedLimiter" = some b6 ∧
      cam.accelerationControl = packAccelerationControl b0 b1 b2 b3 b4 b5 b6 := by
  simp only [on_message_scaled] at h
  repeat (split at h; · exact Option.noConfusion h)
  cases h
  exact ⟨_, _, _, _, _, _, _, ‹_›, ‹_›, ‹_›, ‹_›, ‹_›, ‹_›, ‹_›, rfl⟩

/-- C7: the seven flags are packed into a one-byte bit string with one unused bit,
flag i (brake pedal first) in bit 7 - i and bit 0 clear; every message accepted by the
scaled-field path carries the byte packed from the flags of its payload; brake pedal
and emergency brake alone pack to 0b10100000. -/
theorem C7_control_byte_packing :
    (∀ brakePedal gasPedal emergencyBrake collisionWarning accEngaged cruiseControl
        speedLimiter : Bool,
        ∃ byte : Nat,
          packAccelerationControl brakePedal gasPedal emergencyBrake collisionWarning
              accEngaged cruiseControl speedLimiter = ⟨[byte], 1, 1⟩ ∧
            byte < 256 ∧
            byte.testBit 7 = brakePedal ∧ byte.testBit 6 = gasPedal ∧
            byte.testBit 5 = emergencyBrake ∧ byte.testBit 4 = collisionWarning ∧
            byte.testBit 3 = accEngaged ∧ byte.testBit 2 = cruiseControl ∧
            byte.testBit 1 = speedLimiter ∧ byte.testBit 0 = false) ∧
    (∀ (runtime_now_ms : Int) (from_json_ok : Json → Bool) (payload : Json) (cam : Cam),
        on_message_scaled runtime_now_ms from_json_ok payload = some cam →
        ∃ b0 b1 b2 b3 b4 b5 b6,
          getFlag payload "brakePedal" = some b0 ∧ getFlag payload "gasPedal" = some b1 ∧
          getFlag payload "emergencyBrake" = some b2 ∧
          getFlag payload "collisionWarning" = some b3 ∧
          getFlag payload "accEngaged" = some b4 ∧
          getFlag payload "cruiseControl" = some b5 ∧
          getFlag payload "speedLimiter" = some b6 ∧
          cam.accelerationControl = packAccelerationControl b0 b1 b2 b3 b4 b5 b6) ∧
    packAccelerationControl true false true false false false false =
      ⟨[0b10100000], 1, 1⟩ := by
  refine ⟨?_, on_message_scaled_control, by decide⟩
  intro b0 b1 b2 b3 b4 b5 b6
  cases b0 <;> cases b1 <;> cases b2 <;> cases b3 <;> cases b4 <;> cases b5 <;> cases b6 <;>
    exact ⟨_, rfl, by decide⟩

/-- The sample payload is accepted and its message carries the byte packed from the
flags the payload holds. -/
theorem C7_control_byte_packing_witness :
    on_message_scaled 0 (fun _ => true) samplePayload = some sampleCam ∧
    ∃ b0 b1 b2 b3 b4 b5 b6,
      getFlag samplePayload "brakePedal" = some b0 ∧
      getFlag samplePayload "gasPedal" = some b1 ∧
      getFlag samplePayload "emergencyBrake" = some b2 ∧
      getFlag samplePayload "collisionWarning" = some b3 ∧
      getFlag samplePayload "accEngaged" = some b4 ∧
      getFlag samplePayload "cruiseControl" = some b5 ∧
      getFlag samplePayload "speedLimiter" = some b6 ∧
      sampleCam.accelerationControl = packAccelerationControl b0 b1 b2 b3 b4 b5 b6 :=
  ⟨on_message_scaled_samplePayload,
    C7_control_byte_packing.2.1 0 (fun _ => true) samplePayload sampleCam
      on_message_scaled_samplePayload⟩

/-! ### The kinematic derivation of `on_timer` -/

/-- The bound check of line 369 never fires: a recomputed acceleration is the plain
difference, whatever its size. -/
theorem accelerationStep_recomputed (last_speed : Int) (time_speed : ℚ) (speed : Int)
    (millis_now : ℚ) (h1 : last_speed ≠ LLONG_MIN) (h2 : speed ≠ last_speed) :
    accelerationStep last_speed time_speed speed millis_now =
      (toInt ((speed - last_speed) * 10), speed, millis_now) := by
  have hb : ∀ a : Int, ¬ (a < -160 ∧ a > 160) := by intro a; omega
  simp [accelerationStep, h1, h2, hb]

/-- The bound check of line 381 never fires: a recomputed yaw rate is the plain
difference, whatever its size. -/
theorem yawRateStep_recomputed (last_heading : Int) (time_heading : ℚ) (heading : Int)
    (millis_now : ℚ) (h1 : last_heading ≠ LLONG_MIN) (h2 : heading ≠ last_heading) :
    yawRateStep last_heading time_heading heading millis_now =
      (toInt ((heading - last_heading) * 100), heading, millis_now) := by
  have hb : ∀ a : Int, ¬ (a < -32766 ∧ a > 32766) := by intro a; omega
  simp [yawRateStep, h1, h2, hb]

theorem sampleSpeed_intCast (s : Int) (course : ℚ) (h0 : 0 ≤ s) (h1 : s ≤ 16382) :
    sampleSpeed { speed := (s : ℚ), course := course } = s := by
  have h0q : (0 : ℚ) ≤ (s : ℚ) := by exact_mod_cast h0
  have h1q : (s : ℚ) ≤ 16382 := by exact_mod_cast h1
  simp [sampleSpeed, h0q, h1q, truncToLong_intCast]

theorem sampleHeading_intCast (speed : ℚ) (h : Int) (h0 : 0 ≤ h) (h1 : h ≤ 3600) :
    sampleHeading { speed := speed, course := (h : ℚ) } = h := by
  have h0q : (0 : ℚ) ≤ (h : ℚ) := by exact_mod_cast h0
  have h1q : (h : ℚ) ≤ 3600 := by exact_mod_cast h1
  simp [sampleHeading, h0q, h1q, truncToLong_intCast]

/-- C8 on the code: after a first cycle at speed 100 (acceleration unavailable, baseline
100), a second cycle a tenth of a second later at speed 120 assembles the acceleration
200, outside [-160, 160] and not the sentinel 161; at speed 105 it assembles 50. -/
theorem C8_acceleration_out_of_range_kept :
    (on_timer_assemble sampleConfig Engine.init
      { speed := ((100 : Int) : ℚ), course := ((0 : Int) : ℚ) } 0 1000).1.longitudinalAccelerationValue
        = 161 ∧
    (on_timer_assemble sampleConfig Engine.init
      { speed := ((100 : Int) : ℚ), course := ((0 : Int) : ℚ) } 0 1000).2 = ⟨100, 1000, 0, 1000⟩ ∧
    (on_timer_assemble sampleConfig ⟨100, 1000, 0, 1000⟩
      { speed := ((120 : Int) : ℚ), course := ((0 : Int) : ℚ) } 100
        (10001 / 10)).1.longitudinalAccelerationValue = 200 ∧
    (on_timer_assemble sampleConfig ⟨100, 1000, 0, 1000⟩
      { speed := ((105 : Int) : ℚ), course := ((0 : Int) : ℚ) } 100
        (10001 / 10)).1.longitudinalAccelerationValue = 50 := by
  refine ⟨?_, ?_, ?_, ?_⟩
  · simp [on_timer_assemble, accelerationStep, Engine.init,
      LongitudinalAccelerationValue_unavailable]
  · simp only [on_timer_assemble, Engine.init]
    rw [sampleSpeed_intCast 100 _ (by decide) (by decide),
      sampleHeading_intCast _ 0 (by decide) (by decide)]
    simp [accelerationStep, yawRateStep]
  · simp only [on_timer_assemble]
    rw [sampleSpeed_intCast 120 _ (by decide) (by decide),
      accelerationStep_recomputed _ _ _ _ (by decide) (by decide)]
    decide
  · simp only [on_timer_assemble]
    rw [sampleSpeed_intCast 105 _ (by decide) (by decide),
      accelerationStep_recomputed _ _ _ _ (by decide) (by decide)]
    decide

/-- C9 on the code: after a first cycle at heading 0 (yaw rate unavailable, baseline 0),
a second cycle a tenth of a second later at heading 1000 assembles the yaw rate
100000, outside [-32766, 32766] and not the sentinel 32767; at heading 5 it assembles
500. -/
theorem C9_yaw_rate_out_of_range_kept :
    (on_timer_assemble sampleConfig Engine.init
      { speed := ((100 : Int) : ℚ), course := ((0 : Int) : ℚ) } 0 1000).1.yawRateValue = 32767 ∧
    (on_timer_assemble sampleConfig Engine.init
      { speed := ((100 : Int) : ℚ), course := ((0 : Int) : ℚ) } 0 1000).2 = ⟨100, 1000, 0, 1000⟩ ∧
    (on_timer_assemble sampleConfig ⟨100, 1000, 0, 1000⟩
      { speed := ((100 : Int) : ℚ), course := ((1000 : Int) : ℚ) } 100
        (10001 / 10)).1.yawRateValue = 100000 ∧
    (on_timer_assemble sampleConfig ⟨100, 1000, 0, 1000⟩
      { speed := ((100 : Int) : ℚ), course := ((5 : Int) : ℚ) } 100
        (10001 / 10)).1.yawRateValue = 500 := by
  refine ⟨?_, ?_, ?_, ?_⟩
  · simp [on_timer_assemble, yawRateStep, Engine.init, YawRateValue_unavailable]
  · simp only [on_timer_assemble, Engine.init]
    rw [sampleSpeed_intCast 100 _ (by decide) (by decide),
      sampleHeading_intCast _ 0 (by decide) (by decide)]
    simp [accelerationStep, yawRateStep]
  · simp only [on_timer_assemble]
    rw [sampleHeading_intCast _ 1000 (by decide) (by decide),
      yawRateStep_recomputed _ _ _ _ (by decide) (by decide)]
    decide
  · simp only [on_timer_assemble]
    rw [sampleHeading_intCast _ 5 (by decide) (by decide),
      yawRateStep_recomputed _ _ _ _ (by decide) (by decide)]
    decide

/-- With a prior sample and a recorded sample time, the acceleration step recomputes
exactly when the value differs or a second has passed. -/
theorem accelerationStep_throttle (last_speed : Int) (time_speed : ℚ) (speed : Int)
    (millis_now : ℚ) (h1 : last_speed ≠ LLONG_MIN) (h2 : time_speed ≠ 0) :
    accelerationStep last_speed time_speed speed millis_now =
      if speed ≠ last_speed ∨ millis_now - time_speed ≥ 1 then
        (toInt ((speed - last_speed) * 10), speed, millis_now)
      else (161, speed, time_speed) := by
  have hb : ∀ a : Int, ¬ (a < -160 ∧ a > 160) := by intro a; omega
  simp only [accelerationStep, h1, h2, hb, if_false, ne_eq, not_false_eq_true, true_and,
    LongitudinalAccelerationValue_unavailable]

/-- With a prior sample and a recorded sample time, the yaw-rate step recomputes
exactly when the value differs or a second has passed. -/
theorem yawRateStep_throttle (last_heading : Int) (time_heading : ℚ) (heading : Int)
    (millis_now : ℚ) (h1 : last_heading ≠ LLONG_MIN) (h2 : time_heading ≠ 0) :
    yawRateStep last_heading time_heading heading millis_now =
      if heading ≠ last_heading ∨ millis_now - time_heading ≥ 1 then
        (toInt ((heading - last_heading) * 100), heading, millis_now)
      else (32767, heading, time_heading) := by
  have hb : ∀ a : Int, ¬ (a < -32766 ∧ a > 32766) := by intro a; omega
  simp only [yawRateStep, h1, h2, hb, if_false, ne_eq, not_false_eq_true, true_and,
    YawRateValue_unavailable]

/-- C11: in a beacon cycle from a state with a prior sample and a recorded sample time
on a channel (0 is the no-sample marker of the sample time), the derivative of the
channel is recomputed (the assembled value is the difference times the scale and the
sample time becomes the current time) if and only if the current value differs from
the last one or at least 1 second has passed since the recorded sample time; otherwise
the assembled value is the unavailable sentinel (161, respectively 32767) and the
sample time is kept. -/
theorem C11_throttle_rule (config_s : Config) (engine : Engine) (position : PositionFix)
    (runtime_now_ms : Int) (millis_now : ℚ) :
    (engine.last_speed ≠ LLONG_MIN → engine.time_speed ≠ 0 →
      ((on_timer_assemble config_s engine position runtime_now_ms
          millis_now).1.longitudinalAccelerationValue,
        (on_timer_assemble config_s engine position runtime_now_ms
          millis_now).2.time_speed) =
        if sampleSpeed position ≠ engine.last_speed ∨ millis_now - engine.time_speed ≥ 1 then
          (toInt ((sampleSpeed position - engine.last_speed) * 10), millis_now)
        else (161, engine.time_speed)) ∧
    (engine.last_heading ≠ LLONG_MIN → engine.time_heading ≠ 0 →
      ((on_timer_assemble config_s engine position runtime_now_ms millis_now).1.yawRateValue,
        (on_timer_assemble config_s engine position runtime_now_ms
          millis_now).2.time_heading) =
        if sampleHeading position ≠ engine.last_heading ∨
            millis_now - engine.time_heading ≥ 1 then
          (toInt ((sampleHeading position - engine.last_heading) * 100), millis_now)
        else (32767, engine.time_heading)) := by
  constructor
  · intro h1 h2
    simp only [on_timer_assemble, accelerationStep_throttle _ _ _ _ h1 h2]
    split <;> rfl
  · intro h1 h2
    simp only [on_timer_assemble, yawRateStep_throttle _ _ _ _ h1 h2]
    split <;> rfl

/-- Half a second after a sample of speed 100 and heading 0, the same speed and heading
give no recomputation: both values are unavailable and both sample times are kept. -/
theorem C11_throttle_rule_witness :
    ((on_timer_assemble sampleConfig ⟨100, 1000, 0, 1000⟩
        { speed := ((100 : Int) : ℚ), course := ((0 : Int) : ℚ) } 0
        (2001 / 2)).1.longitudinalAccelerationValue,
      (on_timer_assemble sampleConfig ⟨100, 1000, 0, 1000⟩
        { speed := ((100 : Int) : ℚ), course := ((0 : Int) : ℚ) } 0
        (2001 / 2)).2.time_speed) = (161, 1000) ∧
    ((on_timer_assemble sampleConfig ⟨100, 1000, 0, 1000⟩
        { speed := ((100 : Int) : ℚ), course := ((0 : Int) : ℚ) } 0
        (2001 / 2)).1.yawRateValue,
      (on_timer_assemble sampleConfig ⟨100, 1000, 0, 1000⟩
        { speed := ((100 : Int) : ℚ), course := ((0 : Int) : ℚ) } 0
        (2001 / 2)).2.time_heading) = (32767, 1000) := by
  have h := C11_throttle_rule sampleConfig ⟨100, 1000, 0, 1000⟩
    { speed := ((100 : Int) : ℚ), course := ((0 : Int) : ℚ) } 0 (2001 / 2)
  have hs := h.1 (by decide) (by norm_num)
  have hh := h.2 (by decide) (by norm_num)
  rw [sampleSpeed_intCast 100 _ (by decide) (by decide)] at hs
  rw [sampleHeading_intCast _ 0 (by decide) (by decide)] at hh
  have hc1 : ¬ ((100 : Int) ≠ 100 ∨ (2001 / 2 : ℚ) - 1000 ≥ 1) := by norm_num
  have hc2 : ¬ ((0 : Int) ≠ 0 ∨ (2001 / 2 : ℚ) - 1000 ≥ 1) := by norm_num
  dsimp only at hs hh
  rw [if_neg hc1] at hs
  rw [if_neg hc2] at hh
  exact ⟨hs, hh⟩

/-- C12 as stated fails: a tenth of a second after a sample of speed 100 recorded at
time 1000, a cycle at speed 120 changes the recorded sample time of the speed channel,
although less than 1 second has passed. -/
theorem C12_engine_state_update_counterexample :
    ¬ ((on_timer_assemble sampleConfig ⟨100, 1000, 0, 1000⟩
          { speed := ((120 : Int) : ℚ), course := ((0 : Int) : ℚ) } 0
          (10001 / 10)).2.time_speed ≠ 1000 →
        (10001 / 10 : ℚ) - 1000 ≥ 1) := by
  intro h
  have ht : (on_timer_assemble sampleConfig ⟨100, 1000, 0, 1000⟩
      { speed := ((120 : Int) : ℚ), course := ((0 : Int) : ℚ) } 0
      (10001 / 10)).2.time_speed = 10001 / 10 := by
    simp only [on_timer_assemble]
    rw [sampleSpeed_intCast 120 _ (by decide) (by decide),
      accelerationStep_recomputed _ _ _ _ (by decide) (by decide)]
  rw [ht] at h
  have h2 := h (by norm_num)
  norm_num at h2

/-- C12 amended: after every beacon cycle the last observed speed and heading are the
sampled speed and heading of the cycle; a channel's recorded sample time is changed by
the cycle only when no sample time was recorded yet (the recorded time is 0), or a
prior sample exists and the current value differs from it or at least 1 second has
passed since the recorded sample time; and a changed sample time is the wall-clock
time of the cycle. -/
theorem C12_engine_state_update (config_s : Config) (engine : Engine)
    (position : PositionFix) (runtime_now_ms : Int) (millis_now : ℚ) :
    (on_timer_assemble config_s engine position runtime_now_ms millis_now).2.last_speed =
      sampleSpeed position ∧
    (on_timer_assemble config_s engine position runtime_now_ms millis_now).1.speedValue =
      sampleSpeed position ∧
    (on_timer_assemble config_s engine position runtime_now_ms millis_now).2.last_heading =
      sampleHeading position ∧
    (on_timer_assemble config_s engine position runtime_now_ms millis_now).1.headingValue =
      sampleHeading position ∧
    ((on_timer_assemble config_s engine position runtime_now_ms millis_now).2.time_speed ≠
        engine.time_speed →
      (on_timer_assemble config_s engine position runtime_now_ms millis_now).2.time_speed =
          millis_now ∧
        (engine.time_speed = 0 ∨
          (engine.last_speed ≠ LLONG_MIN ∧
            (sampleSpeed position ≠ engine.last_speed ∨
              millis_now - engine.time_speed ≥ 1)))) ∧
    ((on_timer_assemble config_s engine position runtime_now_ms millis_now).2.time_heading ≠
        engine.time_heading →
      (on_timer_assemble config_s engine position runtime_now_ms millis_now).2.time_heading =
          millis_now ∧
        (engine.time_heading = 0 ∨
          (engine.last_heading ≠ LLONG_MIN ∧
            (sampleHeading position ≠ engine.last_heading ∨
              millis_now - engine.time_heading ≥ 1)))) := by
  refine ⟨?_, rfl, ?_, rfl, ?_, ?_⟩
  · simp only [on_timer_assemble, accelerationStep]
    split_ifs <;> rfl
  · simp only [on_timer_assemble, yawRateStep]
    split_ifs <;> rfl
  · simp only [on_timer_assemble, accelerationStep]
    split_ifs <;> intro hne <;>
      first
      | exact ⟨rfl, Or.inl (by assumption)⟩
      | exact ⟨rfl, Or.inr (by assumption)⟩
      | exact absurd rfl hne
  · simp only [on_timer_assemble, yawRateStep]
    split_ifs <;> intro hne <;>
      first
      | exact ⟨rfl, Or.inl (by assumption)⟩
      | exact ⟨rfl, Or.inr (by assumption)⟩
      | exact absurd rfl hne

/-- A tenth of a second after a sample of speed 100 recorded at time 1000, a cycle at
speed 120 moves the recorded sample time to the time of the cycle, because the value
differs. -/
theorem C12_engine_state_update_witness :
    (on_timer_assemble sampleConfig ⟨100, 1000, 0, 1000⟩
      { speed := ((120 : Int) : ℚ), course := ((0 : Int) : ℚ) } 0
      (10001 / 10)).2.time_speed = 10001 / 10 ∧
    ((1000 : ℚ) = 0 ∨
      ((100 : Int) ≠ LLONG_MIN ∧
        (sampleSpeed { speed := ((120 : Int) : ℚ), course := ((0 : Int) : ℚ) } ≠ 100 ∨
          (10001 / 10 : ℚ) - 1000 ≥ 1))) := by
  have ht : (on_timer_assemble sampleConfig ⟨100, 1000, 0, 1000⟩
      { speed := ((120 : Int) : ℚ), course := ((0 : Int) : ℚ) } 0
      (10001 / 10)).2.time_speed = 10001 / 10 := by
    simp only [on_timer_assemble]
    rw [sampleSpeed_intCast 120 _ (by decide) (by decide),
      accelerationStep_recomputed _ _ _ _ (by decide) (by decide)]
  exact (C12_engine_state_update sampleConfig ⟨100, 1000, 0, 1000⟩
    { speed := ((120 : Int) : ℚ), course := ((0 : Int) : ℚ) } 0 (10001 / 10)).2.2.2.2.1
    (by rw [ht]; norm_num)

/-! ### The beacon scheduler (claims 13 and 18) -/

theorem pending_cancel (runtime_ : Runtime) (this scope : Nat) :
    (runtime_.cancel this).pending scope =
      if scope = this then [] else runtime_.pending scope := by
  simp only [Runtime.cancel, Runtime.pending, List.filter_filter]
  split
  · rename_i h
    subst h
    rw [List.filter_eq_nil_iff]
    intro t _
    by_cases ht : t.scope = scope <;> simp [ht]
  · rename_i h
    apply List.filter_congr
    intro t _
    by_cases ht : t.scope = scope
    · simp [ht, h]
    · simp [ht]

theorem pending_schedule (runtime_ : Runtime) (delay : Int) (this scope : Nat) :
    (runtime_.schedule delay this).pending scope =
      runtime_.pending scope ++ if scope = this then [⟨this, delay⟩] else [] := by
  simp only [Runtime.schedule, Runtime.pending, List.filter_append]
  by_cases h : scope = this
  · subst h; simp
  · have h2 : ¬ this = scope := fun e => h e.symm
    simp [h, h2]

theorem pending_fire (runtime_ : Runtime) (this : Nat) :
    (runtime_.fire this).pending this = (runtime_.pending this).tail := by
  simp only [Runtime.fire, Runtime.pending]
  induction runtime_.queue with
  | nil => rfl
  | cons t q ih =>
    by_cases ht : t.scope = this
    · simp [List.eraseP_cons, ht]
    · simp [List.eraseP_cons, ht, ih]

/-- C13: from every state, `set_interval(d)` leaves the application no pending timer
when d is zero and exactly one pending timer, with delay d, when d is nonzero; it
stores d as the interval and leaves the timers of other scopes alone; so setting any
interval and then the interval zero leaves nothing pending, and a second call never
leaves the timer of the first call pending. -/
theorem C13_set_interval (this : Nat) (app : AppState) (d d1 : Int) (scope : Nat) :
    (set_interval this app d).runtime_.pending this =
      (if d = 0 then [] else [⟨this, d⟩]) ∧
    (set_interval this app d).cam_interval_ = d ∧
    (set_interval this app d).runtime_.pending scope =
      (if scope = this then (if d = 0 then [] else [⟨this, d⟩])
        else app.runtime_.pending scope) ∧
    (set_interval this (set_interval this app d1) 0).runtime_.pending this = [] ∧
    (set_interval this (set_interval this app d1) d).runtime_.pending this =
      (if d = 0 then [] else [⟨this, d⟩]) := by
  have key : ∀ (a : AppState) (x : Int) (sc : Nat),
      (set_interval this a x).runtime_.pending sc =
        (if sc = this then (if x = 0 then [] else [⟨this, x⟩])
          else a.runtime_.pending sc) := by
    intro a x sc
    by_cases hx : x = 0
    · simp [set_interval, hx, pending_cancel]
    · by_cases hs : sc = this
      · simp [set_interval, schedule_timer, hx, hs, pending_schedule, pending_cancel]
      · simp [set_interval, schedule_timer, hx, hs, pending_schedule, pending_cancel]
  refine ⟨?_, ?_, key app d scope, ?_, ?_⟩
  · simpa using key app d this
  · by_cases hx : d = 0 <;> simp [set_interval, schedule_timer, hx]
  · simpa using key (set_interval this app d1) 0 this
  · simpa using key (set_interval this app d1) d this

/-- C18: when the armed timer of the application fires, the cycle of `on_timer` ends
with exactly one pending timer of the application, armed for the configured interval,
whether validation passes or the `runtime_error` of line 437 leaves the function, and
whatever the transport answers. -/
theorem C18_rearm_survives (this : Nat) (topics : TopicConfig) (config_s : Config)
    (to_json : Cam → Json) (validate : Cam → Bool) (position : PositionFix)
    (runtime_now_ms : Int) (millis_now time_now : ℚ) (confirm : Confirm) (app : AppState)
    (armed : Timer) (h : app.runtime_.pending this = [armed]) :
    (timer_fire this topics config_s to_json validate position runtime_now_ms millis_now
      time_now confirm app).1.runtime_.pending this = [⟨this, app.cam_interval_⟩] ∧
    (timer_fire this topics config_s to_json validate position runtime_now_ms millis_now
      time_now confirm app).1.cam_interval_ = app.cam_interval_ ∧
    (timer_fire this topics config_s to_json validate position runtime_now_ms millis_now
      time_now confirm app).2 = !(validate (on_timer_assemble config_s app.engine position
        runtime_now_ms millis_now).1) := by
  have hp : ((app.runtime_.fire this).schedule app.cam_interval_ this).pending this =
      [⟨this, app.cam_interval_⟩] := by
    rw [pending_schedule, pending_fire, h]
    simp
  simp only [timer_fire, on_timer, schedule_timer]
  cases hv : validate (on_timer_assemble config_s app.engine position runtime_now_ms
    millis_now).1 <;> simp [hp]

/-- From the state armed by `set_interval(1000)`, a fire whose message fails validation
and a fire whose request is rejected both end with the one timer for 1000 pending. -/
theorem C18_rearm_survives_witness :
    (timer_fire 1 sampleTopics sampleConfig (fun _ => .null) (fun _ => false)
      { speed := 0, course := 0 } 0 0 0 .accepted
      (set_interval 1 sampleApp 1000)).1.runtime_.pending 1 = [⟨1, 1000⟩] ∧
    (timer_fire 1 sampleTopics sampleConfig (fun _ => .null) (fun _ => true)
      { speed := 0, course := 0 } 0 0 0 .rejected
      (set_interval 1 sampleApp 1000)).1.runtime_.pending 1 = [⟨1, 1000⟩] :=
  ⟨(C18_rearm_survives 1 sampleTopics sampleConfig (fun _ => .null) (fun _ => false)
      { speed := 0, course := 0 } 0 0 0 .accepted (set_interval 1 sampleApp 1000)
      ⟨1, 1000⟩ (by decide)).1,
   (C18_rearm_survives 1 sampleTopics sampleConfig (fun _ => .null) (fun _ => true)
      { speed := 0, course := 0 } 0 0 0 .rejected (set_interval 1 sampleApp 1000)
      ⟨1, 1000⟩ (by decide)).1⟩

/-! ### Malformed payloads (claims 14 to 16) -/

theorem convert_eq_none_iff (f : ScaledField) (j : Json) :
    convert f j = none ↔ j.toDouble = none := by
  rw [convert_eq]
  cases j <;> simp [scaleIn, Json.eqInt, Json.toLong, Json.toDouble]
  all_goals split <;> simp

theorem holdsNumber_iff (payload : Json) (key : String) :
    holdsNumber payload key = true ↔
      ∃ j, payload.index key = some j ∧ ∃ q, j.toDouble = some q := by
  cases payload with
  | object kvs =>
    simp only [holdsNumber, Json.index, Json.atKey]
    cases kvs.lookup key with
    | none => simp [Json.toDouble]
    | some j => cases j <;> simp [Json.toDouble]
  | null => simp [holdsNumber, Json.index, Json.atKey, Json.toDouble]
  | _ => simp [holdsNumber, Json.index, Json.atKey]

theorem toLong_isSome_iff (j : Json) :
    (∃ v, j.toLong = some v) ↔ ∃ q, j.toDouble = some q := by
  cases j <;> simp [Json.toLong, Json.toDouble]

theorem getLong_isSome (payload : Json) (key : String)
    (h : holdsNumber payload key = true) : ∃ v, getLong payload key = some v := by
  obtain ⟨j, hj, hq⟩ := (holdsNumber_iff payload key).mp h
  obtain ⟨v, hv⟩ := (toLong_isSome_iff j).mpr hq
  exact ⟨v, by simp [getLong, hj, hv]⟩

theorem holdsNumber_of_getLong (payload : Json) (key : String) (v : Int)
    (h : getLong payload key = some v) : holdsNumber payload key = true := by
  rw [holdsNumber_iff]
  unfold getLong at h
  split at h
  · exact Option.noConfusion h
  · exact ⟨_, ‹_›, (toLong_isSome_iff _).mp ⟨v, h⟩⟩

theorem getScaled_isSome (payload : Json) (f : ScaledField)
    (h : holdsNumber payload f.key = true) : ∃ v, getScaled payload f = some v := by
  obtain ⟨j, hj, q, hq⟩ := (holdsNumber_iff payload f.key).mp h
  cases hc : convert f j with
  | none => rw [convert_eq_none_iff, hq] at hc; exact Option.noConfusion hc
  | some v => exact ⟨v, by simp [getScaled, hj, hc]⟩

theorem holdsNumber_of_getScaled (payload : Json) (f : ScaledField) (v : Int)
    (h : getScaled payload f = some v) : holdsNumber payload f.key = true := by
  rw [holdsNumber_iff]
  unfold getScaled at h
  split at h
  · exact Option.noConfusion h
  · rename_i j hj
    refine ⟨j, hj, ?_⟩
    cases hq : j.toDouble with
    | none => rw [(convert_eq_none_iff f j).mpr hq] at h; exact Option.noConfusion h
    | some q => exact ⟨q, rfl⟩

theorem getFlag_isSome_iff (payload : Json) (key : String) :
    (∃ b, getFlag payload key = some b) ↔ holdsBoolean payload key = true := by
  simp only [getFlag, holdsBoolean]
  cases payload.atKey key with
  | none => simp
  | some j => cases j <;> simp [Json.toBool]

theorem getFlag_isSome (payload : Json) (key : String)
    (h : holdsBoolean payload key = true) : ∃ b, getFlag payload key = some b :=
  (getFlag_isSome_iff payload key).mpr h

theorem getSpecialVehicle_isSome_iff (from_json_ok : Json → Bool) (payload : Json) :
    (∃ j, getSpecialVehicle from_json_ok payload = some j) ↔
      holdsSpecialVehicle from_json_ok payload = true := by
  simp only [getSpecialVehicle, holdsSpecialVehicle]
  cases payload.atKey "specialVehicle" with
  | none => simp
  | some j => cases h : from_json_ok j <;> simp [h]

theorem getDriveDirection_isSome (payload : Json)
    (h : holdsNumber payload "stationID" = true) :
    ∃ d, getDriveDirection payload = some d := by
  obtain ⟨j, hj, _⟩ := (holdsNumber_iff payload "stationID").mp h
  cases payload <;> simp [Json.index] at hj <;> simp [getDriveDirection, Json.index]

/-- A message comes out of the scaled-field path only if every numeric key holds a
number, every flag key a boolean, and the special-vehicle value is accepted. -/
theorem on_message_scaled_holds (runtime_now_ms : Int) (from_json_ok : Json → Bool)
    (payload : Json) (cam : Cam)
    (h : on_message_scaled runtime_now_ms from_json_ok payload = some cam) :
    (∀ k ∈ numericKeys, holdsNumber payload k = true) ∧
    (∀ k ∈ flagKeys, holdsBoolean payload k = true) ∧
    holdsSpecialVehicle from_json_ok payload = true := by
  simp only [on_message_scaled] at h
  repeat (split at h; · exact Option.noConfusion h)
  refine ⟨?_, ?_, ?_⟩
  · intro k hk
    simp only [numericKeys, List.mem_cons, List.mem_singleton, List.mem_nil_iff,
      or_false] at hk
    rcases hk with rfl | rfl | rfl | rfl | rfl | rfl | rfl | rfl | rfl | rfl | rfl | rfl |
      rfl | rfl | rfl | rfl | rfl | rfl <;>
    first
      | exact holdsNumber_of_getLong payload _ _ (by assumption)
      | exact holdsNumber_of_getScaled payload .latitude _ (by assumption)
      | exact holdsNumber_of_getScaled payload .longitude _ (by assumption)
      | exact holdsNumber_of_getScaled payload .altitude _ (by assumption)
      | exact holdsNumber_of_getScaled payload .heading _ (by assumption)
      | exact holdsNumber_of_getScaled payload .headingConf _ (by assumption)
      | exact holdsNumber_of_getScaled payload .speed _ (by assumption)
      | exact holdsNumber_of_getScaled payload .speedConf _ (by assumption)
      | exact holdsNumber_of_getScaled payload .length _ (by assumption)
      | exact holdsNumber_of_getScaled payload .width _ (by assumption)
      | exact holdsNumber_of_getScaled payload .acceleration _ (by assumption)
      | exact holdsNumber_of_getScaled payload .yawRate _ (by assumption)
  · intro k hk
    simp only [flagKeys, List.mem_cons, List.mem_singleton, List.mem_nil_iff,
      or_false] at hk
    rcases hk with rfl | rfl | rfl | rfl | rfl | rfl | rfl <;>
      exact (getFlag_isSome_iff payload _).mp ⟨_, by assumption⟩
  · exact (getSpecialVehicle_isSome_iff from_json_ok payload).mp ⟨_, by assumption⟩

/-- A payload whose numeric keys hold numbers, whose flag keys hold booleans and whose
special-vehicle value is accepted yields a message, whatever it holds (or does not
hold) under "driveDirection". -/
theorem on_message_scaled_accepts (runtime_now_ms : Int) (from_json_ok : Json → Bool)
    (payload : Json) (hn : ∀ k ∈ numericKeys, holdsNumber payload k = true)
    (hf : ∀ k ∈ flagKeys, holdsBoolean payload k = true)
    (hv : holdsSpecialVehicle from_json_ok payload = true) :
    ∃ cam, on_message_scaled runtime_now_ms from_json_ok payload = some cam := by
  obtain ⟨_, l0⟩ := getLong_isSome payload "stationID" (hn _ (by decide))
  obtain ⟨_, l1⟩ := getLong_isSome payload "semiMajorConf" (hn _ (by decide))
  obtain ⟨_, l2⟩ := getLong_isSome payload "semiMinorConf" (hn _ (by decide))
  obtain ⟨_, l3⟩ := getLong_isSome payload "semiMajorOrient" (hn _ (by decide))
  obtain ⟨_, l4⟩ := getLong_isSome payload "altitudeConf" (hn _ (by decide))
  obtain ⟨_, l5⟩ := getLong_isSome payload "stationType" (hn _ (by decide))
  obtain ⟨_, l6⟩ := getLong_isSome payload "curvature" (hn _ (by decide))
  obtain ⟨_, s0⟩ := getScaled_isSome payload .latitude (hn _ (by decide))
  obtain ⟨_, s1⟩ := getScaled_isSome payload .longitude (hn _ (by decide))
  obtain ⟨_, s2⟩ := getScaled_isSome payload .altitude (hn _ (by decide))
  obtain ⟨_, s3⟩ := getScaled_isSome payload .heading (hn _ (by decide))
  obtain ⟨_, s4⟩ := getScaled_isSome payload .headingConf (hn _ (by decide))
  obtain ⟨_, s5⟩ := getScaled_isSome payload .speed (hn _ (by decide))
  obtain ⟨_, s6⟩ := getScaled_isSome payload .speedConf (hn _ (by decide))
  obtain ⟨_, s7⟩ := getScaled_isSome payload .length (hn _ (by decide))
  obtain ⟨_, s8⟩ := getScaled_isSome payload .width (hn _ (by decide))
  obtain ⟨_, s9⟩ := getScaled_isSome payload .acceleration (hn _ (by decide))
  obtain ⟨_, s10⟩ := getScaled_isSome payload .yawRate (hn _ (by decide))
  obtain ⟨_, f0⟩ := getFlag_isSome payload "brakePedal" (hf _ (by decide))
  obtain ⟨_, f1⟩ := getFlag_isSome payload "gasPedal" (hf _ (by decide))
  obtain ⟨_, f2⟩ := getFlag_isSome payload "emergencyBrake" (hf _ (by decide))
  obtain ⟨_, f3⟩ := getFlag_isSome payload "collisionWarning" (hf _ (by decide))
  obtain ⟨_, f4⟩ := getFlag_isSome payload "accEngaged" (hf _ (by decide))
  obtain ⟨_, f5⟩ := getFlag_isSome payload "cruiseControl" (hf _ (by decide))
  obtain ⟨_, f6⟩ := getFlag_isSome payload "speedLimiter" (hf _ (by decide))
  obtain ⟨_, hd⟩ := getDriveDirection_isSome payload (hn _ (by decide))
  obtain ⟨_, hs⟩ := (getSpecialVehicle_isSome_iff from_json_ok payload).mpr hv
  simp only [on_message_scaled, l0, l1, l2, l3, l4, l5, l6, s0, s1, s2, s3, s4, s5, s6, s7, s8, s9, s10, f0, f1, f2, f3, f4, f5, f6, hd, hs]
  exact ⟨_, rfl⟩

/-- Without its "driveDirection" key the sample payload is still converted: the drive
direction of the message is "unavailable". -/
theorem on_message_scaled_samplePayloadNoDirection :
    on_message_scaled 0 (fun _ => true) samplePayloadNoDirection =
      some { sampleCam with driveDirection := DriveDirection_unavailable } := by
  have e1 : Json.truncToLong (411000000 : ℚ) = 411000000 := truncToLong_ofNat _
  have e2 : Json.truncToLong (-86000000 : ℚ) = -86000000 := by
    rw [truncToLong_neg, truncToLong_ofNat]
  have e3 : Json.truncToLong (905 : ℚ) = 905 := truncToLong_ofNat _
  have e4 : Json.truncToLong (1239 / 10 : ℚ) = 123 :=
    truncToLong_eq_of_nonneg (by norm_num) (by norm_num) (by norm_num)
  have e5 : Json.truncToLong (50 : ℚ) = 50 := truncToLong_ofNat _
  have e6 : Json.truncToLong (42 : ℚ) = 42 := truncToLong_ofNat _
  have e7 : Json.truncToLong (18 : ℚ) = 18 := truncToLong_ofNat _
  simp [on_message_scaled, samplePayloadNoDirection, samplePayload, sampleCam, getLong,
    getScaled, getFlag, getDriveDirection, getSpecialVehicle, Json.index, Json.atKey,
    List.lookup, List.filter, Json.toLong, Json.toBool, ScaledField.key, convert, scaleIn,
    Json.eqInt, Json.toDouble, Json.eqStr, finalAssign]
  norm_num [e1, e2, e3, e4, e5, e6, e7]
  decide

/-- The state `on_message` leaves when a `catch` block returns: only the error report
is new. -/
theorem on_message_dropped (topics : TopicConfig) (config_s : Config)
    (parse : String → Option Json) (from_json_CoopAwareness : Json → Option Cam)
    (from_json_ok : Json → Bool) (runtime_now_ms : Int) (time_reception time_now : ℚ)
    (confirm : Confirm) (app : AppState) (topic mqtt_message : String)
    (htopic : topic = topics.topic_in) (hfull : topic ≠ topics.full_cam_topic_in)
    (h : ∀ payload, parse mqtt_message = some payload →
      on_message_scaled runtime_now_ms from_json_ok payload = none) :
    on_message topics config_s parse from_json_CoopAwareness from_json_ok runtime_now_ms
      time_reception time_now confirm app topic mqtt_message =
        { app with reported := app.reported + 1 } := by
  unfold on_message
  cases hp : parse mqtt_message with
  | none => rfl
  | some payload =>
    have hc : on_message_convert topics config_s from_json_CoopAwareness from_json_ok
        runtime_now_ms topic payload = none := by
      simp only [on_message_convert, if_neg hfull, if_pos htopic]
      exact h payload hp
    simp only [hc]

/-- The state `on_message` leaves on the scaled-field topic when the conversion
yields a message: the message is handed to the transport and the tx counters move. -/
theorem on_message_dispatched (topics : TopicConfig) (config_s : Config)
    (parse : String → Option Json) (from_json_CoopAwareness : Json → Option Cam)
    (from_json_ok : Json → Bool) (runtime_now_ms : Int) (time_reception time_now : ℚ)
    (confirm : Confirm) (app : AppState) (topic mqtt_message : String)
    (htopic : topic = topics.topic_in) (hfull : topic ≠ topics.full_cam_topic_in)
    (payload : Json) (cam : Cam) (hp : parse mqtt_message = some payload)
    (hc : on_message_scaled runtime_now_ms from_json_ok payload = some cam) :
    on_message topics config_s parse from_json_CoopAwareness from_json_ok runtime_now_ms
      time_reception time_now confirm app topic mqtt_message =
        { app with
          requested := app.requested ++ [cam]
          reported := reportConfirm confirm app.reported
          metrics := { app.metrics with
            cam_tx_counter := app.metrics.cam_tx_counter + 1
            cam_tx_latency := app.metrics.cam_tx_latency + (time_now - time_reception) } } := by
  have hcv : on_message_convert topics config_s from_json_CoopAwareness from_json_ok
      runtime_now_ms topic payload = some cam := by
    simp only [on_message_convert, if_neg hfull, if_pos htopic]
    exact hc
  simp only [on_message, hp, hcv]

/-- Every message the scaled-field path accepts holds the drive direction that lines
257-259 compute from the payload. -/
theorem on_message_scaled_driveDirection (runtime_now_ms : Int)
    (from_json_ok : Json → Bool) (payload : Json) (cam : Cam)
    (h : on_message_scaled runtime_now_ms from_json_ok payload = some cam) :
    getDriveDirection payload = some cam.driveDirection := by
  simp only [on_message_scaled] at h
  repeat (split at h; · exact Option.noConfusion h)
  cases h
  assumption

/-- Lines 257-259 on the string "FORWARD". -/
theorem getDriveDirection_forward (payload : Json) (d : Int)
    (h : getDriveDirection payload = some d)
    (hk : payload.atKey "driveDirection" = some (.string "FORWARD")) :
    d = DriveDirection_forward := by
  cases payload <;> simp [Json.atKey] at hk
  simp [getDriveDirection, Json.index, hk, Json.eqStr] at h
  exact h.symm

/-- Lines 257-259 on the string "BACKWARD". -/
theorem getDriveDirection_backward (payload : Json) (d : Int)
    (h : getDriveDirection payload = some d)
    (hk : payload.atKey "driveDirection" = some (.string "BACKWARD")) :
    d = DriveDirection_backward := by
  cases payload <;> simp [Json.atKey] at hk
  simp [getDriveDirection, Json.index, hk, Json.eqStr] at h
  exact h.symm

/-- Lines 257-259 on a payload in which "driveDirection" is missing or is anything but
the strings "FORWARD" and "BACKWARD". -/
theorem getDriveDirection_unavailable (payload : Json) (d : Int)
    (h : getDriveDirection payload = some d)
    (h1 : payload.atKey "driveDirection" ≠ some (.string "FORWARD"))
    (h2 : payload.atKey "driveDirection" ≠ some (.string "BACKWARD")) :
    d = DriveDirection_unavailable := by
  cases payload with
  | object kvs =>
    simp only [Json.atKey] at h1 h2
    simp only [getDriveDirection, Json.index, Option.some.injEq] at h
    cases hl : kvs.lookup "driveDirection" with
    | none =>
      rw [hl] at h
      simp [Json.eqStr] at h
      exact h.symm
    | some dir =>
      rw [hl] at h h1 h2
      cases dir with
      | string s =>
        have e1 : s ≠ "FORWARD" := fun e => h1 (by rw [e])
        have e2 : s ≠ "BACKWARD" := fun e => h2 (by rw [e])
        simp [Json.eqStr, e1, e2] at h
        exact h.symm
      | _ =>
        simp [Json.eqStr] at h
        exact h.symm
  | null =>
    simp [getDriveDirection, Json.index, Json.eqStr] at h
    exact h.symm
  | _ => simp [getDriveDirection, Json.index] at h

/-- C14 as stated fails: "driveDirection" is a required key, the sample payload without
it lacks that key, and `on_message` on the scaled-field topic still hands a message to
the transport. -/
theorem C14_malformed_dropped_counterexample :
    ¬ ("driveDirection" ∈ requiredKeys →
        samplePayloadNoDirection.atKey "driveDirection" = none →
        (on_message sampleTopics sampleConfig (fun _ => some samplePayloadNoDirection)
          (fun _ => none) (fun _ => true) 0 0 0 .accepted sampleApp "vanetza/in/cam"
          "").requested = sampleApp.requested) := by
  intro h
  have h1 := h (by decide) rfl
  rw [on_message_dispatched sampleTopics sampleConfig _ _ _ 0 0 0 .accepted sampleApp
    "vanetza/in/cam" "" rfl (by decide) samplePayloadNoDirection _ rfl
    on_message_scaled_samplePayloadNoDirection] at h1
  simp [sampleApp] at h1

/-- C14 amended: on the scaled-field topic, a payload that is unparseable, or in which
one of the eighteen numeric keys does not hold a JSON number (the key is missing, the
value is of another kind, or the payload is no object), or one of the seven flag keys
does not hold a boolean, or "specialVehicle" is missing or rejected by its converter,
is dropped: no transport request is made and the counters are unchanged.  Every other
payload is converted and handed to the transport, whatever it holds under
"driveDirection": the message has drive direction "forward" for the string "FORWARD",
"backward" for the string "BACKWARD", and "unavailable" when the key is missing or
holds anything else. -/
theorem C14_malformed_dropped (topics : TopicConfig) (config_s : Config)
    (parse : String → Option Json) (from_json_CoopAwareness : Json → Option Cam)
    (from_json_ok : Json → Bool) (runtime_now_ms : Int) (time_reception time_now : ℚ)
    (confirm : Confirm) (app : AppState) (topic mqtt_message : String)
    (htopic : topic = topics.topic_in) (hfull : topic ≠ topics.full_cam_topic_in) :
    (parse mqtt_message = none →
      (on_message topics config_s parse from_json_CoopAwareness from_json_ok runtime_now_ms
        time_reception time_now confirm app topic mqtt_message).requested = app.requested ∧
      (on_message topics config_s parse from_json_CoopAwareness from_json_ok runtime_now_ms
        time_reception time_now confirm app topic mqtt_message).metrics = app.metrics) ∧
    (∀ payload, parse mqtt_message = some payload →
      ((∃ k ∈ numericKeys, holdsNumber payload k = false) ∨
        (∃ k ∈ flagKeys, holdsBoolean payload k = false) ∨
        holdsSpecialVehicle from_json_ok payload = false) →
      (on_message topics config_s parse from_json_CoopAwareness from_json_ok runtime_now_ms
        time_reception time_now confirm app topic mqtt_message).requested = app.requested ∧
      (on_message topics config_s parse from_json_CoopAwareness from_json_ok runtime_now_ms
        time_reception time_now confirm app topic mqtt_message).metrics = app.metrics) ∧
    (∀ payload, parse mqtt_message = some payload →
      (∀ k ∈ numericKeys, holdsNumber payload k = true) →
      (∀ k ∈ flagKeys, holdsBoolean payload k = true) →
      holdsSpecialVehicle from_json_ok payload = true →
      ∃ cam, (on_message topics config_s parse from_json_CoopAwareness from_json_ok
        runtime_now_ms time_reception time_now confirm app topic
        mqtt_message).requested = app.requested ++ [cam] ∧
        (payload.atKey "driveDirection" = some (.string "FORWARD") →
          cam.driveDirection = DriveDirection_forward) ∧
        (payload.atKey "driveDirection" = some (.string "BACKWARD") →
          cam.driveDirection = DriveDirection_backward) ∧
        (payload.atKey "driveDirection" ≠ some (.string "FORWARD") →
          payload.atKey "driveDirection" ≠ some (.string "BACKWARD") →
          cam.driveDirection = DriveDirection_unavailable)) := by
  refine ⟨?_, ?_, ?_⟩
  · intro hp
    rw [on_message_dropped _ _ _ _ _ _ _ _ _ _ _ _ htopic hfull
      (fun payload h => by rw [hp] at h; exact Option.noConfusion h)]
    exact ⟨rfl, rfl⟩
  · intro payload hp hbad
    have hnone : on_message_scaled runtime_now_ms from_json_ok payload = none := by
      cases hc : on_message_scaled runtime_now_ms from_json_ok payload with
      | none => rfl
      | some cam =>
        obtain ⟨hn, hf, hv⟩ := on_message_scaled_holds _ _ _ _ hc
        rcases hbad with ⟨k, hk, hb⟩ | ⟨k, hk, hb⟩ | hb
        · rw [hn k hk] at hb; exact Bool.noConfusion hb
        · rw [hf k hk] at hb; exact Bool.noConfusion hb
        · rw [hv] at hb; exact Bool.noConfusion hb
    rw [on_message_dropped _ _ _ _ _ _ _ _ _ _ _ _ htopic hfull
      (fun p h => by rw [hp] at h; cases h; exact hnone)]
    exact ⟨rfl, rfl⟩
  · intro payload hp hn hf hv
    obtain ⟨cam, hc⟩ := on_message_scaled_accepts runtime_now_ms from_json_ok payload hn hf hv
    have hd := on_message_scaled_driveDirection _ _ _ _ hc
    exact ⟨cam, by rw [on_message_dispatched _ _ _ _ _ _ _ _ _ _ _ _ htopic hfull
      payload cam hp hc],
      fun hk => getDriveDirection_forward payload _ hd hk,
      fun hk => getDriveDirection_backward payload _ hd hk,
      fun h1 h2 => getDriveDirection_unavailable payload _ hd h1 h2⟩

/-- On the sample topics, an unparseable payload and the payload whose only key is
"stationType" are dropped, and the sample payload without its "driveDirection" key is
handed to the transport with drive direction "unavailable". -/
theorem C14_malformed_dropped_witness :
    (on_message sampleTopics sampleConfig (fun _ => none) (fun _ => none) (fun _ => true)
      0 0 0 .accepted sampleApp "vanetza/in/cam" "").requested = [] ∧
    (on_message sampleTopics sampleConfig
      (fun _ => some (.object [("stationType", .number_integer 5)])) (fun _ => none)
      (fun _ => true) 0 0 0 .accepted sampleApp "vanetza/in/cam" "").requested = [] ∧
    ∃ cam, (on_message sampleTopics sampleConfig (fun _ => some samplePayloadNoDirection)
      (fun _ => none) (fun _ => true) 0 0 0 .accepted sampleApp "vanetza/in/cam"
      "").requested = [] ++ [cam] ∧ cam.driveDirection = DriveDirection_unavailable :=
  ⟨((C14_malformed_dropped sampleTopics sampleConfig (fun _ => none) (fun _ => none)
      (fun _ => true) 0 0 0 .accepted sampleApp "vanetza/in/cam" "" rfl (by decide)).1
      rfl).1,
   ((C14_malformed_dropped sampleTopics sampleConfig
      (fun _ => some (.object [("stationType", .number_integer 5)])) (fun _ => none)
      (fun _ => true) 0 0 0 .accepted sampleApp "vanetza/in/cam" "" rfl (by decide)).2.1
      _ rfl (Or.inl ⟨"stationID", by decide, by decide⟩)).1,
   Exists.imp (fun _ h => ⟨h.1, h.2.2.2
      (fun e => Option.noConfusion
        ((rfl : samplePayloadNoDirection.atKey "driveDirection" = none).symm.trans e))
      (fun e => Option.noConfusion
        ((rfl : samplePayloadNoDirection.atKey "driveDirection" = none).symm.trans e))⟩)
     ((C14_malformed_dropped sampleTopics sampleConfig
        (fun _ => some samplePayloadNoDirection) (fun _ => none) (fun _ => true) 0 0 0
        .accepted sampleApp "vanetza/in/cam" "" rfl (by decide)).2.2 _ rfl (by decide)
        (by decide) (by decide))⟩

/-- C15: a JSON object without a "stationID" key, received on the scaled-field topic,
is dropped: `on_message` returns with no transport request made and the four counters
unchanged (only the error report is new). -/
theorem C15_missing_stationID (topics : TopicConfig) (config_s : Config)
    (parse : String → Option Json) (from_json_CoopAwareness : Json → Option Cam)
    (from_json_ok : Json → Bool) (runtime_now_ms : Int) (time_reception time_now : ℚ)
    (confirm : Confirm) (app : AppState) (topic mqtt_message : String)
    (kvs : List (String × Json))
    (htopic : topic = topics.topic_in) (hfull : topic ≠ topics.full_cam_topic_in)
    (hparse : parse mqtt_message = some (.object kvs))
    (hmissing : kvs.lookup "stationID" = none) :
    on_message topics config_s parse from_json_CoopAwareness from_json_ok runtime_now_ms
      time_reception time_now confirm app topic mqtt_message =
        { app with reported := app.reported + 1 } ∧
    (on_message topics config_s parse from_json_CoopAwareness from_json_ok runtime_now_ms
      time_reception time_now confirm app topic mqtt_message).requested = app.requested ∧
    (on_message topics config_s parse from_json_CoopAwareness from_json_ok runtime_now_ms
      time_reception time_now confirm app topic mqtt_message).metrics = app.metrics := by
  have hnone : on_message_scaled runtime_now_ms from_json_ok (.object kvs) = none := by
    simp [on_message_scaled, getLong, Json.index, hmissing, Json.toLong]
  have h := on_message_dropped topics config_s parse from_json_CoopAwareness from_json_ok
    runtime_now_ms time_reception time_now confirm app topic mqtt_message htopic hfull
    (fun p hp => by rw [hparse] at hp; cases hp; exact hnone)
  rw [h]
  exact ⟨rfl, rfl, rfl⟩

/-- The object whose only key is "stationType" leaves the requests and the counters of
the sample state as they were. -/
theorem C15_missing_stationID_witness :
    (on_message sampleTopics sampleConfig
      (fun _ => some (.object [("stationType", .number_integer 5)])) (fun _ => none)
      (fun _ => true) 0 0 0 .accepted sampleApp "vanetza/in/cam" "").requested = [] ∧
    (on_message sampleTopics sampleConfig
      (fun _ => some (.object [("stationType", .number_integer 5)])) (fun _ => none)
      (fun _ => true) 0 0 0 .accepted sampleApp "vanetza/in/cam" "").metrics =
      ⟨0, 0, 0, 0⟩ :=
  (C15_missing_stationID sampleTopics sampleConfig
    (fun _ => some (.object [("stationType", .number_integer 5)])) (fun _ => none)
    (fun _ => true) 0 0 0 .accepted sampleApp "vanetza/in/cam" ""
    [("stationType", .number_integer 5)] rfl (by decide) rfl rfl).2

/-- Every message the scaled-field path builds carries the five forced confidences. -/
theorem on_message_scaled_confidences (runtime_now_ms : Int) (from_json_ok : Json → Bool)
    (payload : Json) (cam : Cam)
    (h : on_message_scaled runtime_now_ms from_json_ok payload = some cam) :
    cam.longitudinalAccelerationConfidence = AccelerationConfidence_unavailable ∧
    cam.yawRateConfidence = YawRateConfidence_unavailable ∧
    cam.headingConfidence = HeadingConfidence_unavailable ∧
    cam.speedConfidence = SpeedConfidence_unavailable ∧
    cam.curvatureConfidence = CurvatureConfidence_unavailable := by
  simp only [on_message_scaled] at h
  repeat (split at h; · exact Option.noConfusion h)
  cases h
  exact ⟨rfl, rfl, rfl, rfl, rfl⟩

/-- C16: every message that `on_message` hands to the transport from the scaled-field
topic has its longitudinal-acceleration, yaw-rate, heading, speed and curvature
confidence equal to the "unavailable" constant of the field, whatever the payload
holds. -/
theorem C16_forced_confidences (topics : TopicConfig) (config_s : Config)
    (parse : String → Option Json) (from_json_CoopAwareness : Json → Option Cam)
    (from_json_ok : Json → Bool) (runtime_now_ms : Int) (time_reception time_now : ℚ)
    (confirm : Confirm) (app : AppState) (topic mqtt_message : String) (cam : Cam)
    (htopic : topic = topics.topic_in) (hfull : topic ≠ topics.full_cam_topic_in)
    (hreq : (on_message topics config_s parse from_json_CoopAwareness from_json_ok
      runtime_now_ms time_reception time_now confirm app topic mqtt_message).requested =
        app.requested ++ [cam]) :
    cam.longitudinalAccelerationConfidence = AccelerationConfidence_unavailable ∧
    cam.yawRateConfidence = YawRateConfidence_unavailable ∧
    cam.headingConfidence = HeadingConfidence_unavailable ∧
    cam.speedConfidence = SpeedConfidence_unavailable ∧
    cam.curvatureConfidence = CurvatureConfidence_unavailable := by
  have hno : app.requested ≠ app.requested ++ [cam] := by
    intro e
    have := List.self_eq_append_right.mp e
    exact List.cons_ne_nil _ _ this
  cases hp : parse mqtt_message with
  | none =>
    rw [on_message_dropped _ _ _ _ _ _ _ _ _ _ _ _ htopic hfull
      (fun payload h => by rw [hp] at h; exact Option.noConfusion h)] at hreq
    exact absurd hreq hno
  | some payload =>
    cases hc : on_message_scaled runtime_now_ms from_json_ok payload with
    | none =>
      rw [on_message_dropped _ _ _ _ _ _ _ _ _ _ _ _ htopic hfull
        (fun p h => by rw [hp] at h; cases h; exact hc)] at hreq
      exact absurd hreq hno
    | some message =>
      rw [on_message_dispatched _ _ _ _ _ _ _ _ _ _ _ _ htopic hfull payload message hp hc]
        at hreq
      have hm : message = cam := by
        have := List.append_cancel_left hreq
        exact List.head_eq_of_cons_eq this
      subst hm
      exact on_message_scaled_confidences _ _ _ _ hc

/-- The sample payload carries heading confidence 126 and speed confidence 0.5; the
message handed to the transport carries the five "unavailable" constants. -/
theorem C16_forced_confidences_witness :
    (on_message sampleTopics sampleConfig (fun _ => some samplePayload) (fun _ => none)
      (fun _ => true) 0 0 0 .accepted sampleApp "vanetza/in/cam" "").requested =
      sampleApp.requested ++ [sampleCam] ∧
    sampleCam.longitudinalAccelerationConfidence = AccelerationConfidence_unavailable ∧
    sampleCam.yawRateConfidence = YawRateConfidence_unavailable ∧
    sampleCam.headingConfidence = HeadingConfidence_unavailable ∧
    sampleCam.speedConfidence = SpeedConfidence_unavailable ∧
    sampleCam.curvatureConfidence = CurvatureConfidence_unavailable := by
  have h : (on_message sampleTopics sampleConfig (fun _ => some samplePayload)
      (fun _ => none) (fun _ => true) 0 0 0 .accepted sampleApp "vanetza/in/cam"
      "").requested = sampleApp.requested ++ [sampleCam] := by
    rw [on_message_dispatched sampleTopics sampleConfig _ _ _ 0 0 0 .accepted sampleApp
      "vanetza/in/cam" "" rfl (by decide) samplePayload sampleCam rfl
      on_message_scaled_samplePayload]
  exact ⟨h, C16_forced_confidences sampleTopics sampleConfig (fun _ => some samplePayload)
    (fun _ => none) (fun _ => true) 0 0 0 .accepted sampleApp "vanetza/in/cam" "" sampleCam
    rfl (by decide) h⟩

/-! ### The advisory flag, the generation timestamp and the flag round trip -/

/-- C17: for every message, reception time and rssi, the JSON objects `buildJSON`
produces from two cache states have the same keys in the same order and the same
entries apart from the entry "newInfo" (and are equal without the metadata fields);
the object is never empty; and `indicate` publishes on the same transports and topics
from both cache states. -/
theorem C17_new_info_advisory (topics : TopicConfig) (config_s : Config)
    (to_json : Cam → Json) (message : Cam) (t : ℚ) (rssi : Int) (include_fields : Bool)
    (time_now json_timestamp : ℚ) (app : AppState) (c1 c2 : Persistence) :
    (buildJSON config_s c1 message t rssi include_fields time_now).json_payload.map Prod.fst =
      (buildJSON config_s c2 message t rssi include_fields time_now).json_payload.map
        Prod.fst ∧
    (buildJSON config_s c1 message t rssi include_fields time_now).json_payload.filter
        (fun kv => decide (kv.1 ≠ "newInfo")) =
      (buildJSON config_s c2 message t rssi include_fields time_now).json_payload.filter
        (fun kv => decide (kv.1 ≠ "newInfo")) ∧
    (buildJSON config_s c1 message t rssi false time_now).json_payload =
      (buildJSON config_s c2 message t rssi false time_now).json_payload ∧
    (buildJSON config_s c1 message t rssi include_fields time_now).json_payload ≠ [] ∧
    (indicate topics config_s to_json message t rssi time_now json_timestamp
        { app with persistence := c1 }).published.map (fun p => (p.transport, p.topic)) =
      (indicate topics config_s to_json message t rssi time_now json_timestamp
        { app with persistence := c2 }).published.map (fun p => (p.transport, p.topic)) := by
  refine ⟨?_, ?_, ?_, ?_, ?_⟩
  · cases include_fields <;> simp [buildJSON]
  · cases include_fields <;> simp [buildJSON, List.filter]
  · simp [buildJSON]
  · cases include_fields <;> simp [buildJSON]
  · simp only [indicate, publishBoth, List.map_append]
    split_ifs <;> simp

/-- The flag test of `buildJSON` on a packed byte gives the packed flag back. -/
theorem controlFlag_pack (b0 b1 b2 b3 b4 b5 b6 : Bool) :
    controlFlag (packAccelerationControl b0 b1 b2 b3 b4 b5 b6) 0 = b0 ∧
    controlFlag (packAccelerationControl b0 b1 b2 b3 b4 b5 b6) 1 = b1 ∧
    controlFlag (packAccelerationControl b0 b1 b2 b3 b4 b5 b6) 2 = b2 ∧
    controlFlag (packAccelerationControl b0 b1 b2 b3 b4 b5 b6) 3 = b3 ∧
    controlFlag (packAccelerationControl b0 b1 b2 b3 b4 b5 b6) 4 = b4 ∧
    controlFlag (packAccelerationControl b0 b1 b2 b3 b4 b5 b6) 5 = b5 ∧
    controlFlag (packAccelerationControl b0 b1 b2 b3 b4 b5 b6) 6 = b6 := by
  cases b0 <;> cases b1 <;> cases b2 <;> cases b3 <;> cases b4 <;> cases b5 <;> cases b6 <;>
    decide

/-- C19: for a runtime clock reading of m milliseconds, the generation timestamp that
`on_timer` assembles, and the one every message of the scaled-field path of
`on_message` carries, is m mod 65536, whatever the wall clock, the engine state, the
position fix, the configuration and the payload are. -/
theorem C19_generation_timestamp (m : Int) (config_s : Config) (engine : Engine)
    (position : PositionFix) (millis_now : ℚ) (from_json_ok : Json → Bool)
    (payload : Json) (cam : Cam)
    (h : on_message_scaled m from_json_ok payload = some cam) :
    (on_timer_assemble config_s engine position m millis_now).1.generationDeltaTime =
      m % 65536 ∧
    cam.generationDeltaTime = m % 65536 := by
  constructor
  · simp [on_timer_assemble, GenerationDeltaTime_oneMilliSec]
  · simp only [on_message_scaled] at h
    repeat (split at h; · exact Option.noConfusion h)
    cases h
    simp [GenerationDeltaTime_oneMilliSec]

/-- At the runtime clock reading 70000 ms both paths write 4464. -/
theorem C19_generation_timestamp_witness :
    ∃ cam, on_message_scaled 70000 (fun _ => true) samplePayload = some cam ∧
      (on_timer_assemble sampleConfig Engine.init { speed := 0, course := 0 } 70000
        0).1.generationDeltaTime = 4464 ∧
      cam.generationDeltaTime = 4464 := by
  obtain ⟨cam, hcam⟩ := on_message_scaled_accepts 70000 (fun _ => true) samplePayload
    (by decide) (by decide) (by decide)
  have h := C19_generation_timestamp 70000 sampleConfig Engine.init
    { speed := 0, course := 0 } 0 (fun _ => true) samplePayload cam hcam
  exact ⟨cam, hcam, h.1, h.2⟩

/-- C20: unpacking with the flag tests of `buildJSON` the byte that `on_message` packs
from seven flags gives the seven flags back; and packing the flags unpacked from a
byte b gives b with bit 0 cleared. -/
theorem C20_control_flag_round_trip (b0 b1 b2 b3 b4 b5 b6 : Bool) (b : Nat)
    (hb : b < 256) :
    (controlFlag (packAccelerationControl b0 b1 b2 b3 b4 b5 b6) 0 = b0 ∧
      controlFlag (packAccelerationControl b0 b1 b2 b3 b4 b5 b6) 1 = b1 ∧
      controlFlag (packAccelerationControl b0 b1 b2 b3 b4 b5 b6) 2 = b2 ∧
      controlFlag (packAccelerationControl b0 b1 b2 b3 b4 b5 b6) 3 = b3 ∧
      controlFlag (packAccelerationControl b0 b1 b2 b3 b4 b5 b6) 4 = b4 ∧
      controlFlag (packAccelerationControl b0 b1 b2 b3 b4 b5 b6) 5 = b5 ∧
      controlFlag (packAccelerationControl b0 b1 b2 b3 b4 b5 b6) 6 = b6) ∧
    packAccelerationControl (controlFlag ⟨[b], 1, 1⟩ 0) (controlFlag ⟨[b], 1, 1⟩ 1)
      (controlFlag ⟨[b], 1, 1⟩ 2) (controlFlag ⟨[b], 1, 1⟩ 3) (controlFlag ⟨[b], 1, 1⟩ 4)
      (controlFlag ⟨[b], 1, 1⟩ 5) (controlFlag ⟨[b], 1, 1⟩ 6) = ⟨[b &&& 254], 1, 1⟩ := by
  refine ⟨controlFlag_pack b0 b1 b2 b3 b4 b5 b6, ?_⟩
  interval_cases b <;> rfl

/-- The byte 0b10111110 that `on_timer` writes unpacks to brake pedal, emergency brake,
collision warning, ACC, cruise control and speed limiter, and packs back to itself. -/
theorem C20_control_flag_round_trip_witness :
    packAccelerationControl (controlFlag ⟨[0b10111110], 1, 1⟩ 0)
      (controlFlag ⟨[0b10111110], 1, 1⟩ 1) (controlFlag ⟨[0b10111110], 1, 1⟩ 2)
      (controlFlag ⟨[0b10111110], 1, 1⟩ 3) (controlFlag ⟨[0b10111110], 1, 1⟩ 4)
      (controlFlag ⟨[0b10111110], 1, 1⟩ 5) (controlFlag ⟨[0b10111110], 1, 1⟩ 6) =
      ⟨[0b10111110 &&& 254], 1, 1⟩ :=
  (C20_control_flag_round_trip true false true false false false false 0b10111110
    (by decide)).2

/-! ### Sampled values, sentinel samples and repeated observations (claims 21 to 23) -/

theorem sampleSpeed_eq (position : PositionFix) :
    sampleSpeed position =
      if 0 ≤ position.speed ∧ position.speed ≤ 16382 then ⌊position.speed⌋ else 16383 := by
  unfold sampleSpeed
  split
  · rename_i h
    exact truncToLong_of_nonneg h.1
  · rfl

theorem sampleHeading_eq (position : PositionFix) :
    sampleHeading position =
      if 0 ≤ position.course ∧ position.course ≤ 3600 then ⌊position.course⌋ else 3601 := by
  unfold sampleHeading
  split
  · rename_i h
    exact truncToLong_of_nonneg h.1
  · rfl

theorem floor_bounds (q : ℚ) (n : Int) (h0 : 0 ≤ q) (h1 : q ≤ (n : ℚ)) :
    0 ≤ ⌊q⌋ ∧ ⌊q⌋ ≤ n := by
  constructor
  · exact Int.floor_nonneg.mpr h0
  · have h2 : ((⌊q⌋ : Int) : ℚ) ≤ (n : ℚ) := le_trans (Int.floor_le q) h1
    exact_mod_cast h2

/-- C21 as stated fails: the provider's speed 12.7 lies in [0, 16382], and the speed
value `on_timer` places in the beacon is 12, not the provider's speed. -/
theorem C21_sampled_values_counterexample :
    ¬ ((0 : ℚ) ≤ 127 / 10 ∧ (127 / 10 : ℚ) ≤ 16382 →
        (((on_timer_assemble sampleConfig Engine.init { speed := 127 / 10, course := 0 } 0
          0).1.speedValue : Int) : ℚ) = 127 / 10) := by
  intro h
  have h1 := h (by norm_num)
  have e : Json.truncToLong (127 / 10 : ℚ) = 12 :=
    truncToLong_eq_of_nonneg (by norm_num) (by norm_num) (by norm_num)
  have hs : (on_timer_assemble sampleConfig Engine.init { speed := 127 / 10, course := 0 } 0
      0).1.speedValue = 12 := by
    simp only [on_timer_assemble, sampleSpeed]
    rw [if_pos (by norm_num), e]
  rw [hs] at h1
  norm_num at h1

/-- C21 amended: for every position fix, the speed value `on_timer` places in the
beacon is the provider's speed truncated to an integer (its floor) when the provider's
speed lies in [0, 16382] and the sentinel 16383 otherwise, and the heading value is the
provider's course truncated to an integer when the course lies in [0, 3600] and the
sentinel 3601 otherwise; so the assembled speed is in [0, 16383] and the assembled
heading in [0, 3601]. -/
theorem C21_sampled_values (config_s : Config) (engine : Engine) (position : PositionFix)
    (runtime_now_ms : Int) (millis_now : ℚ) :
    (on_timer_assemble config_s engine position runtime_now_ms millis_now).1.speedValue =
      (if 0 ≤ position.speed ∧ position.speed ≤ 16382 then ⌊position.speed⌋ else 16383) ∧
    (on_timer_assemble config_s engine position runtime_now_ms millis_now).1.headingValue =
      (if 0 ≤ position.course ∧ position.course ≤ 3600 then ⌊position.course⌋ else 3601) ∧
    0 ≤ (on_timer_assemble config_s engine position runtime_now_ms millis_now).1.speedValue ∧
    (on_timer_assemble config_s engine position runtime_now_ms millis_now).1.speedValue ≤
      16383 ∧
    0 ≤ (on_timer_assemble config_s engine position runtime_now_ms
      millis_now).1.headingValue ∧
    (on_timer_assemble config_s engine position runtime_now_ms millis_now).1.headingValue ≤
      3601 := by
  have hs : (on_timer_assemble config_s engine position runtime_now_ms
      millis_now).1.speedValue = sampleSpeed position := rfl
  have hh : (on_timer_assemble config_s engine position runtime_now_ms
      millis_now).1.headingValue = sampleHeading position := rfl
  rw [hs, hh, sampleSpeed_eq, sampleHeading_eq]
  refine ⟨rfl, rfl, ?_, ?_, ?_, ?_⟩
  · split
    · rename_i h
      exact (floor_bounds _ 16382 h.1 (by exact_mod_cast h.2)).1
    · decide
  · split
    · rename_i h
      have := (floor_bounds _ 16382 h.1 (by exact_mod_cast h.2)).2
      omega
    · decide
  · split
    · rename_i h
      exact (floor_bounds _ 3600 h.1 (by exact_mod_cast h.2)).1
    · decide
  · split
    · rename_i h
      have := (floor_bounds _ 3600 h.1 (by exact_mod_cast h.2)).2
      omega
    · decide

/-- C23: processing an observation in `buildJSON` and then the identical observation
again (whatever rssi, metadata switch and wall clock the second call has) gives the
flag false the second time and leaves the cache as the first call left it. -/
theorem C23_repeat_not_new (config_s : Config) (c : Persistence) (message : Cam) (t : ℚ)
    (rssi rssi2 : Int) (include_fields include_fields2 : Bool) (time_now time_now2 : ℚ) :
    (buildJSON config_s
      (buildJSON config_s c message t rssi include_fields time_now).persistence message t
      rssi2 include_fields2 time_now2).new_info = false ∧
    (buildJSON config_s
      (buildJSON config_s c message t rssi include_fields time_now).persistence message t
      rssi2 include_fields2 time_now2).persistence =
      (buildJSON config_s c message t rssi include_fields time_now).persistence := by
  have key : new_info (buildJSON config_s c message t rssi include_fields
      time_now).persistence message.stationID message.latitude message.longitude t =
      false := by
    simp only [buildJSON]
    cases h1 : new_info c message.stationID message.latitude message.longitude t with
    | false => simpa using h1
    | true => simp [new_info, Persistence.insert]
  constructor
  · simp only [buildJSON] at key ⊢
    exact key
  · simp only [buildJSON] at key ⊢
    rw [key]
    rfl

/-- The acceleration step without its dead bound check. -/
theorem accelerationStep_eq (last_speed : Int) (time_speed : ℚ) (speed : Int)
    (millis_now : ℚ) :
    accelerationStep last_speed time_speed speed millis_now =
      if last_speed ≠ LLONG_MIN ∧ (speed ≠ last_speed ∨
          millis_now - (if time_speed = 0 then millis_now else time_speed) ≥ 1) then
        (toInt ((speed - last_speed) * 10), speed, millis_now)
      else (161, speed, if time_speed = 0 then millis_now else time_speed) := by
  have hb : ∀ a : Int, ¬ (a < -160 ∧ a > 160) := by intro a; omega
  simp only [accelerationStep, hb, if_false, LongitudinalAccelerationValue_unavailable]

/-- The yaw-rate step without its dead bound check. -/
theorem yawRateStep_eq (last_heading : Int) (time_heading : ℚ) (heading : Int)
    (millis_now : ℚ) :
    yawRateStep last_heading time_heading heading millis_now =
      if last_heading ≠ LLONG_MIN ∧ (heading ≠ last_heading ∨
          millis_now - (if time_heading = 0 then millis_now else time_heading) ≥ 1) then
        (toInt ((heading - last_heading) * 100), heading, millis_now)
      else (32767, heading, if time_heading = 0 then millis_now else time_heading) := by
  have hb : ∀ a : Int, ¬ (a < -32766 ∧ a > 32766) := by intro a; omega
  simp only [yawRateStep, hb, if_false, YawRateValue_unavailable]

theorem toInt_of_small (x : Int) (h0 : -2147483648 ≤ x) (h1 : x < 2147483648) :
    toInt x = x := by
  simp only [toInt]
  omega

theorem sampleSpeed_out_of_range (position : PositionFix) (h : position.speed < 0) :
    sampleSpeed position = 16383 := by
  rw [sampleSpeed_eq, if_neg]
  intro hc
  exact absurd hc.1 (not_le.mpr h)

theorem sampleHeading_out_of_range (position : PositionFix) (h : position.course < 0) :
    sampleHeading position = 3601 := by
  rw [sampleHeading_eq, if_neg]
  intro hc
  exact absurd hc.1 (not_le.mpr h)

/-- The engine state after a first cycle at wall-clock time 1000 whose fix has no
valid speed and course. -/
theorem first_cycle_without_fix :
    (on_timer_assemble sampleConfig Engine.init { speed := -1, course := -1 } 0 1000).2 =
      ⟨16383, 1000, 3601, 1000⟩ := by
  have hs := sampleSpeed_out_of_range { speed := -1, course := -1 } (by norm_num)
  have hh := sampleHeading_out_of_range { speed := -1, course := -1 } (by norm_num)
  simp only [on_timer_assemble, hs, hh, accelerationStep_eq, yawRateStep_eq, Engine.init]
  norm_num

/-- C22 as stated fails: two cycles one second apart whose fixes have no valid speed
sample the sentinel 16383 both times, and the second cycle assembles the acceleration
0, not the sentinel 161. -/
theorem C22_sentinel_derivative_counterexample :
    ¬ ((on_timer_assemble sampleConfig
          (on_timer_assemble sampleConfig Engine.init { speed := -1, course := -1 } 0
            1000).2 { speed := -1, course := -1 } 0 1001).1.speedValue =
          SpeedValue_unavailable →
        (on_timer_assemble sampleConfig
          (on_timer_assemble sampleConfig Engine.init { speed := -1, course := -1 } 0
            1000).2 { speed := -1, course := -1 } 0
          1001).1.longitudinalAccelerationValue =
          LongitudinalAccelerationValue_unavailable) := by
  intro h
  have hs := sampleSpeed_out_of_range { speed := -1, course := -1 } (by norm_num)
  rw [first_cycle_without_fix] at h
  have h1 := h (by simp only [on_timer_assemble, hs]; rfl)
  simp only [on_timer_assemble, hs, accelerationStep_eq] at h1
  norm_num [LLONG_MIN, toInt, LongitudinalAccelerationValue_unavailable] at h1

/-- C22 amended: in a beacon cycle in which the current or the last observed speed is
the sentinel 16383, the assembled acceleration is unavailable (161) when no derivative
is recomputed (no prior sample, or the current speed equals the last one and less than
1 second has passed since the sample time, a recorded time of 0 counting as the
current time); when the derivative is recomputed the sentinel enters the difference
like any other speed, and a difference times 10 within [-160, 160] is assembled as it
is.  Likewise for the heading sentinel 3601, the yaw rate, the factor 100 and the
range [-32766, 32766]. -/
theorem C22_sentinel_derivative (config_s : Config) (engine : Engine)
    (position : PositionFix) (runtime_now_ms : Int) (millis_now : ℚ) :
    (sampleSpeed position = 16383 ∨ engine.last_speed = 16383 →
      ((engine.last_speed = LLONG_MIN ∨
          (sampleSpeed position = engine.last_speed ∧
            millis_now - (if engine.time_speed = 0 then millis_now
              else engine.time_speed) < 1)) →
        (on_timer_assemble config_s engine position runtime_now_ms
          millis_now).1.longitudinalAccelerationValue = 161) ∧
      (engine.last_speed ≠ LLONG_MIN →
        (sampleSpeed position ≠ engine.last_speed ∨
          millis_now - (if engine.time_speed = 0 then millis_now
            else engine.time_speed) ≥ 1) →
        -160 ≤ (sampleSpeed position - engine.last_speed) * 10 →
        (sampleSpeed position - engine.last_speed) * 10 ≤ 160 →
        (on_timer_assemble config_s engine position runtime_now_ms
          millis_now).1.longitudinalAccelerationValue =
          (sampleSpeed position - engine.last_speed) * 10)) ∧
    (sampleHeading position = 3601 ∨ engine.last_heading = 3601 →
      ((engine.last_heading = LLONG_MIN ∨
          (sampleHeading position = engine.last_heading ∧
            millis_now - (if engine.time_heading = 0 then millis_now
              else engine.time_heading) < 1)) →
        (on_timer_assemble config_s engine position runtime_now_ms
          millis_now).1.yawRateValue = 32767) ∧
      (engine.last_heading ≠ LLONG_MIN →
        (sampleHeading position ≠ engine.last_heading ∨
          millis_now - (if engine.time_heading = 0 then millis_now
            else engine.time_heading) ≥ 1) →
        -32766 ≤ (sampleHeading position - engine.last_heading) * 100 →
        (sampleHeading position - engine.last_heading) * 100 ≤ 32766 →
        (on_timer_assemble config_s engine position runtime_now_ms
          millis_now).1.yawRateValue =
          (sampleHeading position - engine.last_heading) * 100)) := by
  constructor
  · intro _
    constructor
    · intro hno
      simp only [on_timer_assemble, accelerationStep_eq]
      rw [if_neg]
      rintro ⟨h1, h2⟩
      rcases hno with hno | ⟨he, ht⟩
      · exact h1 hno
      · rcases h2 with h2 | h2
        · exact h2 he
        · exact absurd h2 (not_le.mpr ht)
    · intro h1 h2 hlo hhi
      simp only [on_timer_assemble, accelerationStep_eq]
      rw [if_pos ⟨h1, h2⟩]
      exact toInt_of_small _ (by omega) (by omega)
  · intro _
    constructor
    · intro hno
      simp only [on_timer_assemble, yawRateStep_eq]
      rw [if_neg]
      rintro ⟨h1, h2⟩
      rcases hno with hno | ⟨he, ht⟩
      · exact h1 hno
      · rcases h2 with h2 | h2
        · exact h2 he
        · exact absurd h2 (not_le.mpr ht)
    · intro h1 h2 hlo hhi
      simp only [on_timer_assemble, yawRateStep_eq]
      rw [if_pos ⟨h1, h2⟩]
      exact toInt_of_small _ (by omega) (by omega)

/-- One second after a cycle without a valid fix, a second cycle without a valid fix
assembles the acceleration 0 and the yaw rate 0. -/
theorem C22_sentinel_derivative_witness :
    (on_timer_assemble sampleConfig ⟨16383, 1000, 3601, 1000⟩ { speed := -1, course := -1 } 0
      1001).1.longitudinalAccelerationValue = 0 ∧
    (on_timer_assemble sampleConfig ⟨16383, 1000, 3601, 1000⟩ { speed := -1, course := -1 } 0
      1001).1.yawRateValue = 0 := by
  have hs := sampleSpeed_out_of_range { speed := -1, course := -1 } (by norm_num)
  have hh := sampleHeading_out_of_range { speed := -1, course := -1 } (by norm_num)
  have h := C22_sentinel_derivative sampleConfig ⟨16383, 1000, 3601, 1000⟩
    { speed := -1, course := -1 } 0 1001
  have ha := (h.1 (Or.inl hs)).2 (by decide) (Or.inr (by norm_num))
    (by rw [hs]; decide) (by rw [hs]; decide)
  have hy := (h.2 (Or.inl hh)).2 (by decide) (Or.inr (by norm_num))
    (by rw [hh]; decide) (by rw [hh]; decide)
  rw [hs] at ha
  rw [hh] at hy
  exact ⟨ha, hy⟩

end CamApplication
